import Mathlib

/-!
Verification of the process-lifecycle / console-bridge core of the gotale
repository.  The Python sources `src/utils/server_manager.py` and
`src/utils/gotale_bridge.py` (plus the helper `src/utils/server_webhooks.py`)
are shallowly embedded below: pure fragments become Lean functions, the
stateful monitor/registry/tailer loops become explicit step functions on
state records, fallible code returns `Except`/`Bool` results, and the
pattern matching done with `re` in the source is reimplemented as executable
scanners over `List Char` with the same alternation/greediness behaviour on
the literal patterns of the source.  Wall-clock instants are integer seconds (the cooldown and
scheduling logic only compares time differences against whole-second
constants);
`time.sleep` calls are irrelevant to the verified properties and are noted
where dropped.
-/

namespace Gotale

/-! ## String scanning utilities (embedding of the `re` patterns) -/

/-- Python `\s` (ASCII part, which is all the monitored output uses). -/
def pyIsSpace (c : Char) : Bool :=
  c == ' ' || c == '\t' || c == '\n' || c == '\r' || c == '\x0b' || c == '\x0c'

/-- Lower-case a char list (for `re.IGNORECASE` on the ASCII patterns used). -/
def lowerL (l : List Char) : List Char := l.map Char.toLower

/-- Boolean list-prefix test. -/
def isPrefixL : List Char → List Char → Bool
  | [], _ => true
  | _ :: _, [] => false
  | a :: as, b :: bs => a == b && isPrefixL as bs

/-- Substring search: does `needle` occur anywhere in the haystack. -/
def containsL (needle : List Char) : List Char → Bool
  | [] => isPrefixL needle []
  | c :: rest => isPrefixL needle (c :: rest) || containsL needle rest

/-- Scan left to right for the first position where `p` succeeds
(the leftmost-match rule of `re.search`). -/
def scanO {α : Type} (p : List Char → Option α) : List Char → Option α
  | [] => p []
  | c :: rest =>
    match p (c :: rest) with
    | some r => some r
    | none => scanO p rest

/-- Scan left to right for a position where the boolean matcher fires. -/
def scanB (p : List Char → Bool) : List Char → Bool
  | [] => p []
  | c :: rest => p (c :: rest) || scanB p rest

/-- Case-insensitive containment of a (lower-case) literal. -/
def containsCI (hay : String) (needleLower : String) : Bool :=
  containsL needleLower.data (lowerL hay.data)

/-- Case-sensitive containment. -/
def containsS (hay : String) (needle : String) : Bool :=
  containsL needle.data hay.data

/-- Python `str.lower()` (ASCII, which is all that reaches it here). -/
def pyLower (s : String) : String := String.mk (lowerL s.data)

/-- Boolean suffix test on strings. -/
def endsWithL (s suffix : String) : Bool :=
  isPrefixL suffix.data.reverse s.data.reverse

/-- Python `str.replace(pat, repl)`: replace every non-overlapping
occurrence left to right (identity on an empty pattern, which no caller
uses).  Structural recursion on a fuel initialized to the list length —
each step consumes at least one character and one unit of fuel, so the
fuel never runs out. -/
def replaceFuel (pat repl : List Char) : Nat → List Char → List Char
  | 0, l => l
  | _, [] => []
  | fuel + 1, c :: rest =>
    if pat ≠ [] && isPrefixL pat (c :: rest) then
      repl ++ replaceFuel pat repl fuel ((c :: rest).drop pat.length)
    else c :: replaceFuel pat repl fuel rest

/-- Entry point of the replace scan. -/
def replaceAllL (pat repl : List Char) (l : List Char) : List Char :=
  replaceFuel pat repl l.length l

/-- String wrapper for `replaceAllL`. -/
def pyReplace (s pat repl : String) : String :=
  String.mk (replaceAllL pat.data repl.data s.data)

/-- The last `n` elements of a list, in order (Python `l[-n:]` for
`n ≥ 1`). -/
def takeLastN {α : Type} (n : Nat) (l : List α) : List α :=
  l.drop (l.length - n)

/-! ## The monitor's regular expressions (`monitor_console_output`).
Each Python pattern is a literal alternation; we reimplement each with the
same leftmost-match and greediness behaviour. -/

/-- Matcher for `w1` followed by one-or-more whitespace followed by `w2`
(at the current position).  Since `w2` starts with a non-space character in
every use, greedy `\s+` plus backtracking is equivalent to dropping the
maximal whitespace run after requiring at least one space. -/
def seqWsAt (w1 w2 : List Char) (l : List Char) : Bool :=
  isPrefixL w1 l &&
    (match l.drop w1.length with
     | [] => false
     | a :: as => pyIsSpace a && isPrefixL w2 (as.dropWhile pyIsSpace))

/-- `no_tokens_pattern = re.compile(r'No server tokens configured|Use /auth login to authenticate', re.IGNORECASE)` -/
def noTokensM (s : String) : Bool :=
  containsCI s "no server tokens configured" ||
  containsCI s "use /auth login to authenticate"

/-- `auth_success_pattern`: `authentication\s+successful|successfully authenticated|logged in|successfully created game session`, IGNORECASE. -/
def authSuccessM (s : String) : Bool :=
  let l := lowerL s.data
  scanB (seqWsAt "authentication".data "successful".data) l ||
  containsL "successfully authenticated".data l ||
  containsL "logged in".data l ||
  containsL "successfully created game session".data l

/-- Matcher at a position for `Mode:\s*(OAUTH|AUTHENTICATED|EXTERNAL_SESSION)` (already lower-cased input). -/
def modeOkAt (l : List Char) : Bool :=
  isPrefixL "mode:".data l &&
    (let rest := (l.drop 5).dropWhile pyIsSpace
     isPrefixL "oauth".data rest || isPrefixL "authenticated".data rest ||
       isPrefixL "external_session".data rest)

/-- `auth_ok_pattern`: `(Mode:\s*(OAUTH|AUTHENTICATED|EXTERNAL_SESSION))|auth\.status\.tokenPresent|tokenPresent`, IGNORECASE. -/
def authOkM (s : String) : Bool :=
  let l := lowerL s.data
  scanB modeOkAt l ||
  containsL "auth.status.tokenpresent".data l ||
  containsL "tokenpresent".data l

/-- `auth_bad_pattern`: `Not authenticated|Unauthenticated|Authentication required|auth\.status\.tokenMissing|tokenMissing`, IGNORECASE. -/
def authBadM (s : String) : Bool :=
  containsCI s "not authenticated" ||
  containsCI s "unauthenticated" ||
  containsCI s "authentication required" ||
  containsCI s "auth.status.tokenmissing" ||
  containsCI s "tokenmissing"

/-- `persistence_unknown_pattern = re.compile(r'auth\.persistence\.unknownType', re.IGNORECASE)` -/
def persistUnknownM (s : String) : Bool :=
  containsCI s "auth.persistence.unknowntype"

/-- `persistence_any_pattern = re.compile(r'auth\.persistence\.', re.IGNORECASE)` -/
def persistAnyM (s : String) : Bool :=
  containsCI s "auth.persistence."

/-- Characters accepted by `\S` (non-whitespace). -/
def nonSpace (c : Char) : Bool := !pyIsSpace c

/-- Characters of the code class `[A-Za-z0-9-]`. -/
def codeChar (c : Char) : Bool :=
  (('A' ≤ c && c ≤ 'Z') || ('a' ≤ c && c ≤ 'z') || ('0' ≤ c && c ≤ '9') || c == '-')

/-- Match attempt, at the current position, of
`(https://accounts\.hytale\.com/device(?:\?user_code=\S+)?)|(https://oauth\.accounts\.hytale\.com/oauth2/device/verify\?user_code=\S+)`
(case sensitive).  Returns the text of whichever group matched, first
alternative preferred, optional query group greedy. -/
def authUrlAt (l : List Char) : Option (List Char) :=
  let p1 := "https://accounts.hytale.com/device".data
  let p2 := "https://oauth.accounts.hytale.com/oauth2/device/verify?user_code=".data
  if isPrefixL p1 l then
    let rest := l.drop p1.length
    let q := "?user_code=".data
    if isPrefixL q rest && (rest.drop q.length).takeWhile nonSpace ≠ [] then
      some (p1 ++ q ++ (rest.drop q.length).takeWhile nonSpace)
    else
      some p1
  else if isPrefixL p2 l then
    let run := (l.drop p2.length).takeWhile nonSpace
    if run ≠ [] then some (p2 ++ run) else none
  else
    none

/-- `auth_url_pattern.search`, returning `raw_url = group(1) or group(2)`. -/
def authUrlSearch (s : String) : Option String :=
  (scanO authUrlAt s.data).map (fun l => String.mk l)

/-- `re.search(r'user_code=([A-Za-z0-9-]+)', raw)` returning group 1. -/
def userCodeSearch (s : String) : Option String :=
  (scanO
    (fun l =>
      let m := "user_code=".data
      if isPrefixL m l then
        let run := (l.drop m.length).takeWhile codeChar
        if run ≠ [] then some run else none
      else none)
    s.data).map (fun l => String.mk l)

/-- `auth_code_pattern = re.compile(r'(Authorization code:|Enter code:)\s*([A-Za-z0-9-]+)')`, returning group 2. -/
def authCodeSearch (s : String) : Option String :=
  (scanO
    (fun l =>
      let m1 := "Authorization code:".data
      let m2 := "Enter code:".data
      let afterMarker : Option (List Char) :=
        if isPrefixL m1 l then some (l.drop m1.length)
        else if isPrefixL m2 l then some (l.drop m2.length)
        else none
      match afterMarker with
      | none => none
      | some rest =>
        let run := (rest.dropWhile pyIsSpace).takeWhile codeChar
        if run ≠ [] then some run else none)
    s.data).map (fun l => String.mk l)

/-! ## ANSI stripping: `re.sub(r'\x1b\[[0-9;]*[A-Za-z]', '', line)` -/

/-- Try to match one ANSI control sequence at the head of the list,
returning the remainder after it. -/
def ansiMatchAt (l : List Char) : Option (List Char) :=
  match l with
  | c1 :: c2 :: rest =>
    if c1 == '\x1b' && c2 == '[' then
      match rest.dropWhile (fun c => c.isDigit || c == ';') with
      | c :: tail => if c.isAlpha then some tail else none
      | [] => none
    else none
  | _ => none

/-- Remove every ANSI control-sequence match, scanning left to right as
`re.sub` does (advance one char when no match starts at the position).
Structural recursion on a fuel initialized to the list length — a match
consumes at least three characters, a non-match one, so the fuel never
runs out. -/
def ansiStripFuel : Nat → List Char → List Char
  | 0, l => l
  | _, [] => []
  | fuel + 1, c :: rest =>
    match ansiMatchAt (c :: rest) with
    | some tail => ansiStripFuel fuel tail
    | none => c :: ansiStripFuel fuel rest

/-- Entry point of the ANSI strip scan. -/
def ansiStripL (l : List Char) : List Char := ansiStripFuel l.length l

/-- `clean_line = re.sub(r'\x1b\[[0-9;]*[A-Za-z]', '', line)` -/
def ansiStrip (s : String) : String := String.mk (ansiStripL s.data)

/-! ## Console monitor model (`monitor_console_output` and helpers)

One instance's `server_info` dict, the monitor thread's local variables, and
the instance's `_console_buffers` entry become one state record; each
iteration of the monitor loop becomes `monitorStep`.  `send_command` calls
made by the monitor are modelled as always succeeding (the process is alive
and registered while the monitor runs); `time.sleep` delays and the
asynchronous `_schedule_auth_verification` timer (which only touches the
filesystem-verification fields) are dropped, as noted at each spot. -/

/-- `AUTH_LOGIN_COOLDOWN = 20` seconds. -/
def AUTH_LOGIN_COOLDOWN : ℤ := 20

/-- `MAX_BUFFER_LINES = 1000`. -/
def MAX_BUFFER_LINES : Nat := 1000

/-- `AUTH_PERSISTENCE_TYPES = ['Encrypted']`. -/
def AUTH_PERSISTENCE_TYPES : List String := ["Encrypted"]

/-- Commands written through `send_command`; `renderCmd` gives the exact
string the source writes. -/
inductive Cmd where
  | authStatus
  | authLoginDevice
  | authPersistence (t : String)
deriving DecidableEq, Repr

/-- The literal command strings of the source. -/
def renderCmd : Cmd → String
  | .authStatus => "/auth status"
  | .authLoginDevice => "/auth login device"
  | .authPersistence t => "/auth persistence " ++ t

/-- The `auth_required` payload dict (`server_id`, `server_name`, `url`, `code`). -/
structure AuthPayload where
  server_id : Nat
  server_name : String
  url : String
  code : String
deriving DecidableEq, Repr

/-- The per-instance `server_info` fields touched by the monitor and the
auth-login helpers (initial values as set in `start_server`). -/
structure ServerInfo where
  auth_pending : Bool
  auth_url : Option String
  auth_code : Option String
  server_name : String
  start_time : ℤ
  auth_status_requested : Bool
  auth_checked : Bool
  auth_persistence_attempted : Bool
  auth_persistence_done : Bool
  auth_persistence_index : Nat
  auth_persistence_exhausted : Bool
  last_auth_payload : Option AuthPayload
  auth_login_requested_at : ℤ
  auth_persistence_types : Option (List String)
  auth_persistence_last : Option String
  auth_persistence_verified : Bool
  auth_token_path : Option String
deriving DecidableEq, Repr

/-- `server_info` as initialized by `start_server` (lines 638-659). -/
def initServerInfo (name : String) (t0 : ℤ) (tokenPath : Option String) : ServerInfo where
  auth_pending := false
  auth_url := none
  auth_code := none
  server_name := name
  start_time := t0
  auth_status_requested := false
  auth_checked := false
  auth_persistence_attempted := false
  auth_persistence_done := false
  auth_persistence_index := 0
  auth_persistence_exhausted := false
  last_auth_payload := none
  auth_login_requested_at := 0
  auth_persistence_types := none
  auth_persistence_last := none
  auth_persistence_verified := tokenPath.isSome
  auth_token_path := tokenPath

/-- Python truthiness of an optional string (`None` and `''` are falsy). -/
def truthyOS : Option String → Bool
  | none => false
  | some s => !s.data.isEmpty

/-- Python `opt or dflt` on an optional string. -/
def strOr (o : Option String) (d : String) : String :=
  match o with
  | some s => if s.isEmpty then d else s
  | none => d

/-- `_should_request_auth_login(server_info)` for a present record: rejects
when an auth request is already pending with a URL, or within the 20s
cooldown of the last request. -/
def should_request_auth_login (info : ServerInfo) (now : ℤ) : Bool :=
  if info.auth_pending && truthyOS info.auth_url then false
  else if now - info.auth_login_requested_at < AUTH_LOGIN_COOLDOWN then false
  else true

/-- `request_auth_login` for a registered instance whose `send_command`
succeeds: issues `/auth login device`, records the request time, and marks
auth pending.  Returns `(ok, info, commands)`. -/
def request_auth_login (now : ℤ) (info : ServerInfo) :
    Bool × ServerInfo × List Cmd :=
  if should_request_auth_login info now then
    (true,
     { info with auth_login_requested_at := now, auth_pending := true },
     [Cmd.authLoginDevice])
  else
    (false, info, [])

/-- `send_auth_persistence(server_id, server_info)`: `setdefault` the
candidate list to `P` (the module constant `AUTH_PERSISTENCE_TYPES` in the
source, kept as a parameter so that lists of any size are covered), then
either flag exhaustion when the cursor is past the end, or mark an attempt
and issue `/auth persistence <type>`. -/
def send_auth_persistence (P : List String) (info : ServerInfo) :
    ServerInfo × List Cmd :=
  let types := info.auth_persistence_types.getD P
  let info := { info with auth_persistence_types := some types }
  if h : info.auth_persistence_index < types.length then
    let t := types.get ⟨info.auth_persistence_index, h⟩
    ({ info with auth_persistence_last := some t, auth_persistence_attempted := true },
     [Cmd.authPersistence t])
  else
    ({ info with auth_persistence_exhausted := true }, [])

/-- Broadcast events emitted to the WebSocket layer by the monitor. -/
inductive Emit where
  | consoleOutput (line : String)
  | authRequired (p : AuthPayload)
  | authSuccess
deriving DecidableEq, Repr

/-- Monitor-loop state: the shared `server_info`, the instance's console
buffer, and the loop-local variables `auth_command_sent`,
`pending_auth_url`, `pending_auth_code`. -/
structure MonState where
  info : ServerInfo
  buffer : List String
  auth_command_sent : Bool
  pending_auth_url : Option String
  pending_auth_code : Option String
deriving DecidableEq, Repr

/-- Intermediate accumulator while processing one dequeued line. -/
structure Acc where
  info : ServerInfo
  sent : Bool
  pUrl : Option String
  pCode : Option String
  cmds : List Cmd
  emits : List Emit
deriving DecidableEq, Repr

/-- Lines 966-976: the "no tokens configured" trigger (the `time.sleep(1)`
before the request is dropped; the request is recorded at the line's
processing time). -/
def branchNoTokens (now : ℤ) (clean : String) (a : Acc) : Acc :=
  if noTokensM clean && !a.sent then
    { a with info := (request_auth_login now a.info).2.1,
             sent := (request_auth_login now a.info).1,
             cmds := a.cmds ++ (request_auth_login now a.info).2.2 }
  else a

/-- The canonical URL built from a matched raw URL (lines 981-987): the
device URL with the embedded user code when one is present, the raw match
otherwise. -/
def canonUrl (raw : String) : String :=
  match userCodeSearch raw with
  | some code => "https://accounts.hytale.com/device?user_code=" ++ code
  | none => raw

/-- Lines 978-990: authentication-URL detection and canonicalization. -/
def branchUrl (clean : String) (a : Acc) : Acc :=
  match authUrlSearch clean with
  | none => a
  | some raw =>
    { a with
        pUrl := some (canonUrl raw),
        info := { a.info with
          auth_url := some (canonUrl raw)
          auth_pending := true } }

/-- Lines 992-1001: authorization-code detection. -/
def branchCode (clean : String) (a : Acc) : Acc :=
  match authCodeSearch clean with
  | none => a
  | some code =>
    let a := { a with pCode := some code,
                      info := { a.info with auth_code := some code } }
    if !truthyOS a.info.auth_url && !truthyOS a.pUrl then
      let u := "https://accounts.hytale.com/device?user_code=" ++ code
      { a with pUrl := some u,
               info := { a.info with auth_url := some u, auth_pending := true } }
    else a

/-- Lines 1003-1038: the `auth_required` broadcast with payload
de-duplication against `last_auth_payload`. -/
def branchBroadcast (sid : Nat) (a : Acc) : Acc :=
  if truthyOS a.pUrl && a.info.auth_pending then
    let payload : AuthPayload :=
      ⟨sid, a.info.server_name, (a.pUrl).getD "", strOr a.pCode "See URL"⟩
    let a :=
      if some payload ≠ a.info.last_auth_payload then
        { a with emits := a.emits ++ [Emit.authRequired payload],
                 info := { a.info with last_auth_payload := some payload } }
      else a
    { a with pUrl := none, pCode := none }
  else if truthyOS a.pCode && a.info.auth_pending && truthyOS a.info.auth_url then
    let payload : AuthPayload :=
      ⟨sid, a.info.server_name, (a.info.auth_url).getD "", (a.pCode).getD ""⟩
    let a :=
      if some payload ≠ a.info.last_auth_payload then
        { a with emits := a.emits ++ [Emit.authRequired payload],
                 info := { a.info with last_auth_payload := some payload } }
      else a
    { a with pCode := none }
  else a

/-- Lines 1040-1065: successful-authentication handling (the `time.sleep(1)`
before the persistence command and the async verification timer are
dropped). -/
def branchSuccess (P : List String) (clean : String) (a : Acc) : Acc :=
  if authSuccessM clean && a.info.auth_pending then
    let a := { a with
      info := { a.info with auth_pending := false, auth_url := none,
                            auth_code := none, auth_checked := true,
                            last_auth_payload := none },
      sent := false }
    let a :=
      if !a.info.auth_persistence_done then
        { a with info := (send_auth_persistence P a.info).1,
                 cmds := a.cmds ++ (send_auth_persistence P a.info).2 }
      else a
    { a with emits := a.emits ++ [Emit.authSuccess] }
  else a

/-- Lines 1067-1089: `/auth status` response handling (`auth_ok` clears the
pending auth state; otherwise `auth_bad` retriggers the login request). -/
def branchOkBad (now : ℤ) (clean : String) (a : Acc) : Acc :=
  if authOkM clean then
    let a := { a with info := { a.info with
      auth_pending := false, auth_url := none, auth_code := none,
      last_auth_payload := none } }
    if !a.info.auth_checked then
      { a with info := { a.info with auth_checked := true },
               emits := a.emits ++ [Emit.authSuccess] }
    else a
  else if authBadM clean && !a.sent then
    { a with info := (request_auth_login now a.info).2.1,
             sent := (request_auth_login now a.info).1,
             cmds := a.cmds ++ (request_auth_login now a.info).2.2 }
  else a

/-- Lines 1091-1098: persistence-mode rejection advances the candidate
cursor and retries; any other persistence acknowledgment marks done. -/
def branchPersist (P : List String) (clean : String) (a : Acc) : Acc :=
  if persistUnknownM clean && a.info.auth_persistence_attempted &&
      !a.info.auth_persistence_done && !a.info.auth_persistence_exhausted then
    let info := { a.info with
      auth_persistence_index := a.info.auth_persistence_index + 1,
      auth_persistence_attempted := false }
    { a with info := (send_auth_persistence P info).1,
             cmds := a.cmds ++ (send_auth_persistence P info).2 }
  else if persistAnyM clean && !persistUnknownM clean &&
      a.info.auth_persistence_attempted then
    { a with info := { a.info with auth_persistence_done := true } }
  else a

/-- Console-buffer append with trim (lines 946-952):
append `clean`, then keep only the last `MAX_BUFFER_LINES` entries. -/
def bufferAppend (buf : List String) (clean : String) : List String :=
  if (buf ++ [clean]).length > MAX_BUFFER_LINES then
    (buf ++ [clean]).drop ((buf ++ [clean]).length - MAX_BUFFER_LINES)
  else buf ++ [clean]

/-- The per-line processing pipeline run against one cleaned line: the
no-tokens trigger, URL and code detection, the de-duplicated broadcast,
success handling, `/auth status` response handling and the persistence
retry logic, in source order. -/
def processAcc (P : List String) (sid : Nat) (now : ℤ) (clean : String) (a : Acc) : Acc :=
  branchPersist P clean
    (branchOkBad now clean
      (branchSuccess P clean
        (branchBroadcast sid
          (branchCode clean
            (branchUrl clean
              (branchNoTokens now clean a))))))

/-- The scheduled once-only `/auth status` issued two seconds after start
(runs every loop iteration before the queue poll). -/
def scheduledStatus (now : ℤ) (info : ServerInfo) : ServerInfo × List Cmd :=
  if !info.auth_status_requested && info.start_time != 0 &&
      2 ≤ now - info.start_time then
    ({ info with auth_status_requested := true }, [Cmd.authStatus])
  else (info, [])

/-- One iteration of the monitor loop at wall-clock time `now`:
the scheduled `/auth status` check, then (if the queue poll returned a
line rather than timing out) the per-line processing pipeline. -/
def monitorStep (P : List String) (sid : Nat) (now : ℤ) (st : MonState)
    (item : Option (String × String)) : MonState × List Cmd × List Emit :=
  let pre := scheduledStatus now st.info
  match item with
  | none => ({ st with info := pre.1 }, pre.2, [])
  | some (_stream, line) =>
    let clean := ansiStrip line
    let buf := bufferAppend st.buffer clean
    let a : Acc :=
      { info := pre.1, sent := st.auth_command_sent,
        pUrl := st.pending_auth_url, pCode := st.pending_auth_code,
        cmds := [], emits := [Emit.consoleOutput clean] }
    let a := processAcc P sid now clean a
    ({ info := a.info, buffer := buf, auth_command_sent := a.sent,
       pending_auth_url := a.pUrl, pending_auth_code := a.pCode },
     pre.2 ++ a.cmds, a.emits)

/-- Run the monitor over a list of timestamped queue-poll results
(`none` = `queue.Empty` timeout). -/
def monitorRun (P : List String) (sid : Nat) (st : MonState) :
    List (ℤ × Option (String × String)) → MonState × List Cmd × List Emit
  | [] => (st, [], [])
  | (t, it) :: evs =>
    let o := monitorStep P sid t st it
    let r := monitorRun P sid o.1 evs
    (r.1, o.2.1 ++ r.2.1, o.2.2 ++ r.2.2)

/-- Monitor state right after `start_server` registered the instance
(console buffer seeded with the start banner, loop locals at their initial
values). -/
def initMonState (name : String) (t0 : ℤ) (tokenPath : Option String) : MonState where
  info := initServerInfo name t0 tokenPath
  buffer := ["Starting server process..."]
  auth_command_sent := false
  pending_auth_url := none
  pending_auth_code := none

/-! ## Process registry, `start_server` and `send_command`

`_running_servers` is the process-wide dict from instance id to the
`server_info` record; here it is an association list with dict lookup
semantics.  The OS-level process handle becomes `Proc`: `poll` is the
non-blocking exit status (`none` while running) and `stdin` the captured
pipe, with an explicit flag for a write/flush `OSError`. -/

/-- The `subprocess.Popen` handle as `send_command`/`stop_server` see it. -/
structure Proc where
  poll : Option Int
  stdin : Option String
  stdinBroken : Bool
deriving DecidableEq, Repr

/-- One `_running_servers[server_id]` record (process handle plus the
monitor-visible `server_info` fields). -/
structure RegEntry where
  proc : Proc
  info : ServerInfo
  port : Nat
deriving DecidableEq, Repr

/-- The `_running_servers` registry. -/
abbrev Registry := List (Nat × RegEntry)

/-- Dict lookup. -/
def regFind (reg : Registry) (sid : Nat) : Option RegEntry :=
  (reg.find? (fun p => p.1 == sid)).map (·.2)

/-- Dict update of an existing key. -/
def regSet (reg : Registry) (sid : Nat) (e : RegEntry) : Registry :=
  reg.map (fun p => if p.1 == sid then (p.1, e) else p)

/-- The environment `start_server` consults: file-existence checks at the
instance's computed paths and the outcome of `subprocess.Popen` (which, when
it fails, raises before the registry is touched). -/
structure StartEnv where
  jar_exists : Bool
  assets_exists : Bool
  spawn_ok : Bool
  auth_token_path : Option String
  server_name : String
  now : ℤ
  port : Nat
deriving DecidableEq, Repr

/-- `start_server(server_id, port, ...)` (lines 533-709), reduced to its
registry-and-process effects: reject when already registered, reject when
the jar or assets file is missing, return failure with no residual record
when the spawn raises, and otherwise register the new record.  The result
carries the number of processes spawned by the call. -/
def start_server (env : StartEnv) (reg : Registry) (sid : Nat) :
    Bool × Registry × Nat :=
  if (regFind reg sid).isSome then
    (false, reg, 0)
  else if !env.jar_exists then
    (false, reg, 0)
  else if !env.assets_exists then
    (false, reg, 0)
  else if !env.spawn_ok then
    (false, reg, 0)
  else
    let entry : RegEntry :=
      { proc := { poll := none, stdin := some "", stdinBroken := false },
        info := initServerInfo env.server_name env.now env.auth_token_path,
        port := env.port }
    (true, reg ++ [(sid, entry)], 1)

/-- `send_command(server_id, command)` (lines 751-790): failure (returned,
never raised) when the instance is unregistered, the process has exited,
stdin is missing, or the write/flush raises; on success exactly
`command + '\n'` is appended to the captured stdin and flushed. -/
def send_command (reg : Registry) (sid : Nat) (command : String) :
    Bool × Registry :=
  match regFind reg sid with
  | none => (false, reg)
  | some e =>
    if (e.proc.poll).isSome then (false, reg)
    else
      match e.proc.stdin with
      | none => (false, reg)
      | some buf =>
        if e.proc.stdinBroken then (false, reg)
        else
          (true,
           regSet reg sid
             { e with proc := { e.proc with stdin := some (buf ++ command ++ "\n") } })

/-! ## Event-bridge webhook dispatcher (`utils/gotale_bridge.py`)

`_send_webhook`'s HTTP attempts are driven by an oracle mapping the attempt
number to its outcome; the `retry_after` field of an HTTP-error outcome is
the value produced by the source's header-then-body extraction chain
(`0` when absent or unparsable).  `time.sleep` durations are collected in a
list instead of being waited out. -/

/-- `_WEBHOOK_QUEUE_MAXSIZE = 1000`. -/
def WEBHOOK_QUEUE_MAXSIZE : Nat := 1000

/-- Outcome of one `urllib.request.urlopen` attempt. -/
inductive AttemptResult where
  | success
  | httpError (code : Nat) (retryAfter : ℚ)
  | netError
deriving DecidableEq, Repr

/-- The counter fields of a `_webhook_diagnostics` record (the timestamp
and last-error observability fields are independent of every claim and
omitted). -/
structure WebhookDiag where
  sent_total : Nat
  failed_total : Nat
  dropped_total : Nat
  enqueued_total : Nat
  rate_limited_total : Nat
deriving DecidableEq, Repr

/-- Fresh diagnostics record (`_get_webhook_diag` default). -/
def diag0 : WebhookDiag :=
  { sent_total := 0, failed_total := 0, dropped_total := 0,
    enqueued_total := 0, rate_limited_total := 0 }

/-- `_note_webhook_success`. -/
def noteSuccess (d : WebhookDiag) : WebhookDiag :=
  { d with sent_total := d.sent_total + 1 }

/-- `_note_webhook_failure` (increments the rate-limited counter too when
the failure was a 429). -/
def noteFailure (d : WebhookDiag) (rateLimited : Bool) : WebhookDiag :=
  { d with failed_total := d.failed_total + 1,
           rate_limited_total :=
             d.rate_limited_total + (if rateLimited then 1 else 0) }

/-- `_note_webhook_enqueued`. -/
def noteEnqueued (d : WebhookDiag) : WebhookDiag :=
  { d with enqueued_total := d.enqueued_total + 1 }

/-- `_note_webhook_dropped`. -/
def noteDropped (d : WebhookDiag) : WebhookDiag :=
  { d with dropped_total := d.dropped_total + 1 }

/-- `_trim_webhook_message(content, max_length=1900)`. -/
def trim_webhook_message (content : Option String) : Option String :=
  match content with
  | none => none
  | some text =>
    if text.length ≤ 1900 then some text
    else some ((text.take 1897) ++ "...")

/-- Result of `_send_webhook`: delivery outcome, the sleeps performed
between attempts, the number of HTTP attempts made, and the updated
diagnostics. -/
structure SendOut where
  result : Bool
  sleeps : List ℚ
  attempts : Nat
  diag : WebhookDiag
deriving DecidableEq, Repr

/-- `max_attempts = 4`. -/
def webhookMaxAttempts : Nat := 4

/-- The `for attempt in range(1, max_attempts + 1)` body of `_send_webhook`:
success returns; a 429 before the last attempt sleeps the clamped
Retry-After and retries; a 5xx before the last attempt sleeps `attempt`
seconds and retries; every other HTTP error (and any error on the final
attempt) records the failure and returns `False`; a non-HTTP exception
retries with the same linear backoff.  Diagnostics are updated only when a
`server_id` was supplied. -/
def sendAttempts (oracle : Nat → AttemptResult) (haveSid : Bool) :
    Nat → Nat → WebhookDiag → SendOut
  | _, 0, d => { result := false, sleeps := [], attempts := 0, diag := d }
  | attempt, fuel + 1, d =>
    match oracle attempt with
    | .success =>
      { result := true, sleeps := [], attempts := 1,
        diag := if haveSid then noteSuccess d else d }
    | .httpError code ra =>
      if code == 429 && attempt < webhookMaxAttempts then
        let r := sendAttempts oracle haveSid (attempt + 1) fuel d
        { r with sleeps := min (max ra 1) 30 :: r.sleeps, attempts := r.attempts + 1 }
      else if 500 ≤ code && code < 600 && attempt < webhookMaxAttempts then
        let r := sendAttempts oracle haveSid (attempt + 1) fuel d
        { r with sleeps := (attempt : ℚ) :: r.sleeps, attempts := r.attempts + 1 }
      else
        { result := false, sleeps := [], attempts := 1,
          diag := if haveSid then noteFailure d (code == 429) else d }
    | .netError =>
      if attempt < webhookMaxAttempts then
        let r := sendAttempts oracle haveSid (attempt + 1) fuel d
        { r with sleeps := (attempt : ℚ) :: r.sleeps, attempts := r.attempts + 1 }
      else
        { result := false, sleeps := [], attempts := 1,
          diag := if haveSid then noteFailure d false else d }

/-- `_send_webhook(url, content, server_id, event_type)` (lines 104-170). -/
def send_webhook (oracle : Nat → AttemptResult) (url : String)
    (content : Option String) (haveSid : Bool) (d : WebhookDiag) : SendOut :=
  if url.isEmpty then
    { result := false, sleeps := [], attempts := 0, diag := d }
  else
    match trim_webhook_message content with
    | none => { result := false, sleeps := [], attempts := 0, diag := d }
    | some text =>
      if text.isEmpty then
        { result := false, sleeps := [], attempts := 0, diag := d }
      else
        sendAttempts oracle haveSid 1 webhookMaxAttempts d

/-! ### Bounded webhook FIFO (`_dispatch_webhook`, lines 214-243) -/

/-- A `queue.Queue(maxsize=...)` holding `(url, message, event_type)`
triples.  `maxsize = 0` means unbounded, as in Python. -/
structure WQueue where
  maxsize : Nat
  items : List (String × String × String)
deriving DecidableEq, Repr

/-- `put_nowait` raises `queue.Full` exactly when the queue is bounded and
at capacity. -/
def wqFull (q : WQueue) : Bool :=
  0 < q.maxsize && q.maxsize ≤ q.items.length

/-- The enqueue tail of `_dispatch_webhook`: `put_nowait`; on `queue.Full`
note the drop, `get_nowait` the oldest entry, and `put_nowait` again (the
retry always succeeds in this single-consumer model since a slot was just
freed). -/
def webhookEnqueue (qd : WQueue × WebhookDiag) (item : String × String × String) :
    WQueue × WebhookDiag :=
  let (q, d) := qd
  if !wqFull q then
    ({ q with items := q.items ++ [item] }, noteEnqueued d)
  else
    let d := noteDropped d
    let q := { q with items := q.items.tail }
    ({ q with items := q.items ++ [item] }, noteEnqueued d)

/-- The webhook-relevant fields of a bridge event payload, pre-stringified
as `render_message`'s `str(...)` calls produce them (`none` = key absent). -/
structure EventPayload where
  type : Option String
  player : Option String
  uuid : Option String
  world : Option String
  cause : Option String
  message : Option String
  tps : Option String
  mspt : Option String
  timestamp : Option String
deriving DecidableEq, Repr

/-- Python `str.strip()` (whitespace both ends). -/
def pyStrip (s : String) : String :=
  String.mk (((s.data.dropWhile pyIsSpace).reverse.dropWhile pyIsSpace).reverse)

/-- `DEFAULT_TEMPLATES` of `utils/server_webhooks.py` (the four event keys). -/
def DEFAULT_TEMPLATES (eventType : String) : String :=
  if eventType == "player_connect" then "✅ Player connected: **{player}**"
  else if eventType == "player_disconnect" then "👋 Player disconnected: **{player}**"
  else if eventType == "player_death" then "💀 Player death: **{player}** ({cause}) in **{world}**"
  else if eventType == "player_chat" then "💬 **{player}**: {message}"
  else ""

/-- `render_message(event_type, payload, template)` of
`utils/server_webhooks.py`: resolve the template (falling back to the
default for the event type), substitute each placeholder in insertion
order, then strip; empty results become `None`. -/
def render_message (eventType : String) (p : EventPayload) (template : Option String) :
    Option String :=
  if eventType.isEmpty then none
  else
    let resolved := strOr template (DEFAULT_TEMPLATES eventType)
    if resolved.isEmpty then none
    else
      let repl : List (String × String) :=
        [("{player}", p.player.getD "Unknown"),
         ("{uuid}", p.uuid.getD ""),
         ("{world}", p.world.getD "unknown"),
         ("{cause}", p.cause.getD "unknown"),
         ("{message}", p.message.getD ""),
         ("{tps}", p.tps.getD ""),
         ("{mspt}", p.mspt.getD ""),
         ("{timestamp}", p.timestamp.getD "")]
      let out := repl.foldl (fun acc kv => pyReplace acc kv.1 kv.2) resolved
      let out := pyStrip out
      if out.isEmpty then none else some out

/-- One per-event-type row of the cached webhook settings. -/
structure WebhookEntry where
  url : String
  enabled : Bool
  template : String
deriving DecidableEq, Repr

/-- `_dispatch_webhook(db_path, server_id, payload, stop_event)`: gate on
the event type, the enabled flag and URL of the configured entry, and a
non-empty rendered message; then run the never-blocking bounded enqueue. -/
def dispatch_webhook (webhooks : String → Option WebhookEntry)
    (p : EventPayload) (qd : WQueue × WebhookDiag) : WQueue × WebhookDiag :=
  match p.type with
  | none => qd
  | some et =>
    if et.isEmpty then qd
    else
      match webhooks et with
      | none => qd
      | some entry =>
        if !entry.enabled || entry.url.isEmpty then qd
        else
          match render_message et p
              (if entry.template.isEmpty then none else some entry.template) with
          | none => qd
          | some msg => webhookEnqueue qd (entry.url, msg, et)

/-! ## Log tailer (`tail_server_logs`, lines 462-531)

The logs directory is a snapshot list of files (name within the directory,
inode, mtime, content as lines).  An open Python file handle is bound to an
inode with a read position; reopening by path rebinds to the path's current
inode at position 0 (or at end-of-file when the size check trips).  One
poll-loop iteration becomes `tailStep`; a run consumes one directory
snapshot per iteration. -/

/-- One file of the instance's `logs/` directory. -/
structure FileEnt where
  path : String
  ino : Nat
  mtime : ℚ
  content : List String
deriving DecidableEq, Repr

/-- A directory snapshot, in `os.listdir` order. -/
abbrev LogsDir := List FileEnt

/-- Byte size of the file (`os.path.getsize`), one newline per line. -/
def fileSize (f : FileEnt) : Nat :=
  f.content.foldl (fun acc l => acc + l.utf8ByteSize + 1) 0

/-- The `2 * 1024 * 1024` size threshold for tailing from the end. -/
def TAIL_SIZE_THRESHOLD : Nat := 2 * 1024 * 1024

/-- Python `max(candidates, key=os.path.getmtime)`: first maximal element in
iteration order. -/
def maxByMtime : LogsDir → Option FileEnt
  | [] => none
  | f :: rest =>
    match maxByMtime rest with
    | none => some f
    | some m => if m.mtime > f.mtime then some m else some f

/-- Choice of the file to tail: prefer `latest.log` when present, otherwise
the most recently modified non-`.gz` file (none when no candidates). -/
def newestLog (fs : LogsDir) : Option FileEnt :=
  match fs.find? (fun e => e.path == "latest.log") with
  | some e => some e
  | none => maxByMtime (fs.filter (fun e => !endsWithL e.path ".gz"))

/-- Tailer loop state: `last_log_path` and the open handle (inode bound at
open time, read position in lines). -/
structure TailState where
  last_log_path : Option String
  handle : Option (Nat × Nat)
deriving DecidableEq, Repr

/-- Content currently readable through an open handle (the inode's content
in the present snapshot; an unlinked-and-still-open inode reads nothing). -/
def inoContent (fs : LogsDir) (i : Nat) : List String :=
  match fs.find? (fun e => e.ino == i) with
  | some e => e.content
  | none => []

/-- The `readline` part of one loop iteration: emit the next line of the
open file if one is available. -/
def tailRead (fs : LogsDir) (st : TailState) : TailState × List (String × String) :=
  match st.handle with
  | none => (st, [])
  | some (i, pos) =>
    let content := inoContent fs i
    if h : pos < content.length then
      ({ st with handle := some (i, pos + 1) },
       [("log", content.get ⟨pos, h⟩)])
    else (st, [])

/-- One iteration of the tail loop on a directory snapshot: pick the newest
log, reopen when the chosen path changed (from position 0, or from the end
with one informational line when the file exceeds the size threshold), then
read at most one line. -/
def tailStep (fs : LogsDir) (st : TailState) : TailState × List (String × String) :=
  match newestLog fs with
  | none => (st, [])
  | some ne =>
    if st.last_log_path ≠ some ne.path then
      let big := TAIL_SIZE_THRESHOLD < fileSize ne
      let st' : TailState :=
        { last_log_path := some ne.path,
          handle := some (ne.ino, if big then ne.content.length else 0) }
      let openEmits : List (String × String) :=
        if big then [("system", "Log output is large; tailing from end.")] else []
      let (st'', es) := tailRead fs st'
      (st'', openEmits ++ es)
    else
      tailRead fs st

/-- Run the tailer over successive directory snapshots. -/
def tailRun (st : TailState) : List LogsDir → TailState × List (String × String)
  | [] => (st, [])
  | fs :: rest =>
    let (st1, e1) := tailStep fs st
    let (st2, e2) := tailRun st1 rest
    (st2, e1 ++ e2)

/-- Tailer state at thread start. -/
def initTailState : TailState := { last_log_path := none, handle := none }

/-! ## Startup-settings normalization (`_merge_startup_settings`, lines 1485-1526)

JSON-decoded Python values are embedded as `SVal`; floats carry the three
IEEE special shapes explicitly since `int()` raises `OverflowError` on
infinities (not caught by `_coerce_int`, which only catches `ValueError`)
and `ValueError` on NaN.  `pyFloatParse` models `float(str)` on decimal and
`inf`/`nan` literals (digit-group underscores and double rounding are
elided — both are immaterial to every property below; decimal values of
magnitude at least `2^1024` overflow to an infinity as in IEEE754). -/

/-- Shapes a Python float can take here. -/
inductive PyFloat where
  | finite (q : ℚ)
  | inf
  | neginf
  | nan
deriving DecidableEq, Repr

/-- Uncaught exceptions `_merge_startup_settings` can propagate. -/
inductive PyErr where
  | overflowError
  | valueError
deriving DecidableEq, Repr

/-- A JSON-decoded Python value as `_coerce_int` discriminates them
(`vOther` covers lists/dicts, which every branch falls through). -/
inductive SVal where
  | vNone
  | vBool (b : Bool)
  | vInt (n : ℤ)
  | vFloat (f : PyFloat)
  | vStr (s : String)
  | vOther
deriving DecidableEq, Repr

/-- `int(float)` truncation toward zero. -/
def truncQ (q : ℚ) : ℤ := if 0 ≤ q then ⌊q⌋ else ⌈q⌉

/-- Digits to a natural number. -/
def digitsToNat (l : List Char) : Nat :=
  l.foldl (fun acc c => acc * 10 + (c.toNat - '0'.toNat)) 0

/-- All-digit check. -/
def allDigits (l : List Char) : Bool := l.all Char.isDigit

/-- Parse `digits [. digits]` (at least one digit overall) to a rational. -/
def parseDecMant (l : List Char) : Option ℚ :=
  let intPart := l.takeWhile Char.isDigit
  let rest := l.drop intPart.length
  match rest with
  | [] => if intPart ≠ [] then some (digitsToNat intPart : ℚ) else none
  | '.' :: frac =>
    if allDigits frac && (intPart ≠ [] || frac ≠ []) then
      some ((digitsToNat intPart : ℚ) +
        (digitsToNat frac : ℚ) / ((10 : ℚ) ^ frac.length))
    else none
  | _ => none

/-- Parse an optionally signed exponent (all digits, at least one). -/
def parseExpPart (l : List Char) : Option ℤ :=
  match l with
  | '+' :: ds => if ds ≠ [] && allDigits ds then some (digitsToNat ds : ℤ) else none
  | '-' :: ds => if ds ≠ [] && allDigits ds then some (-(digitsToNat ds : ℤ)) else none
  | ds => if ds ≠ [] && allDigits ds then some (digitsToNat ds : ℤ) else none

/-- Split a char list at the first occurrence of `'e'`. -/
def splitAtE (l : List Char) : List Char × Option (List Char) :=
  match l with
  | [] => ([], none)
  | 'e' :: rest => ([], some rest)
  | c :: rest =>
    let (m, e) := splitAtE rest
    (c :: m, e)

/-- `float(cleaned)` on an already-stripped string: signed `inf`,
`infinity` or `nan` literal, or a signed decimal with optional exponent;
`none` models the `ValueError` for anything else. -/
def pyFloatParse (s : String) : Option PyFloat :=
  let l := lowerL s.data
  let (sgn, body) : ℤ × List Char :=
    match l with
    | '+' :: rest => (1, rest)
    | '-' :: rest => (-1, rest)
    | _ => (1, l)
  if body == "inf".data || body == "infinity".data then
    some (if sgn = 1 then .inf else .neginf)
  else if body == "nan".data then
    some .nan
  else
    let (mant, expPart) := splitAtE body
    match parseDecMant mant with
    | none => none
    | some m =>
      let e : Option ℤ :=
        match expPart with
        | none => some 0
        | some ep => parseExpPart ep
      match e with
      | none => none
      | some e =>
        let q : ℚ := (sgn : ℚ) * m * (10 : ℚ) ^ e
        if (2 : ℚ) ^ (1024 : ℕ) ≤ |q| then
          some (if 0 ≤ q then .inf else .neginf)
        else
          some (.finite q)

/-- `_coerce_int(value)` (lines 1468-1483).  The `try` only guards the
string branch and only catches `ValueError`, so an infinite float — direct
or parsed from a string such as `"inf"` — raises `OverflowError` out of the
function, and a bare NaN float raises `ValueError`. -/
def coerce_int : SVal → Except PyErr (Option ℤ)
  | .vNone => .ok none
  | .vBool _ => .ok none
  | .vInt n => .ok (some n)
  | .vFloat (.finite q) => .ok (some (truncQ q))
  | .vFloat .inf => .error .overflowError
  | .vFloat .neginf => .error .overflowError
  | .vFloat .nan => .error .valueError
  | .vStr s =>
    let cleaned := pyStrip s
    if cleaned.isEmpty then .ok none
    else
      match pyFloatParse cleaned with
      | none => .ok none
      | some (.finite q) => .ok (some (truncQ q))
      | some .inf => .error .overflowError
      | some .neginf => .error .overflowError
      | some .nan => .ok none
  | .vOther => .ok none

/-- Python truthiness of an `SVal`. -/
def svTruthy : SVal → Bool
  | .vNone => false
  | .vBool b => b
  | .vInt n => n ≠ 0
  | .vFloat (.finite q) => q ≠ 0
  | .vFloat _ => true
  | .vStr s => !s.isEmpty
  | .vOther => true

/-- Python `str(value)`.  The precise repr of non-string values is
immaterial here: no such repr strip-lowers to `authenticated` or `offline`,
which is all the normalization inspects. -/
def pyStr : SVal → String
  | .vStr s => s
  | .vNone => "None"
  | .vBool b => if b then "True" else "False"
  | .vInt n => toString n
  | .vFloat _ => "float repr"
  | .vOther => "object repr"

/-- Python `int(value)` under an `except (TypeError, ValueError)` guard, as
in the `backup_frequency` clause: `none` models a caught exception; an
infinite float still raises `OverflowError` through the guard. -/
def pyIntGuarded : SVal → Except PyErr (Option ℤ)
  | .vInt n => .ok (some n)
  | .vBool b => .ok (some (if b then 1 else 0))
  | .vFloat (.finite q) => .ok (some (truncQ q))
  | .vFloat .inf => .error .overflowError
  | .vFloat .neginf => .error .overflowError
  | .vFloat .nan => .ok none
  | .vStr s =>
    let cleaned := pyStrip s
    match cleaned.data with
    | '+' :: ds => .ok (if ds ≠ [] && allDigits ds then some (digitsToNat ds : ℤ) else none)
    | '-' :: ds => .ok (if ds ≠ [] && allDigits ds then some (-(digitsToNat ds : ℤ)) else none)
    | ds => .ok (if ds ≠ [] && allDigits ds then some (digitsToNat ds : ℤ) else none)
  | .vNone => .ok none
  | .vOther => .ok none

/-- `x or ''` for the string-normalized fields. -/
def svOrEmpty (v : SVal) : SVal := if svTruthy v then v else .vStr ""

/-- The normalized result of `_merge_startup_settings`. -/
structure StartupSettings where
  min_ram_mb : Option ℤ
  max_ram_mb : Option ℤ
  game_profile : String
  auth_mode : String
  automatic_update : Bool
  allow_op : Bool
  accept_early_plugins : Bool
  asset_pack : String
  enable_backups : Bool
  backup_directory : String
  backup_frequency : ℤ
  disable_sentry : Bool
  jvm_args : String
  leverage_aot_cache : Bool
deriving DecidableEq, Repr

/-- Input to the normalization: any non-dict value leaves the defaults
untouched; a dict overrides them key by key. -/
inductive SettingsV where
  | notDict
  | dict (entries : List (String × SVal))
deriving DecidableEq, Repr

/-- Dict lookup, later duplicate keys winning as in `dict.update`. -/
def svGet (es : List (String × SVal)) (k : String) : Option SVal :=
  (es.reverse.find? (fun p => p.1 == k)).map (·.2)

/-- `merged.get(key)` after `merged = DEFAULT_STARTUP_SETTINGS.copy();
merged.update(settings)`: the settings value when present, else the
default. -/
def mergedGet (s : SettingsV) (k : String) (d : SVal) : SVal :=
  match s with
  | .notDict => d
  | .dict es => (svGet es k).getD d

/-- Clause `if X is not None and X <= 0: X = None` applied to a coerced RAM
bound. -/
def clampPos (o : Option ℤ) : Option ℤ :=
  match o with
  | some n => if n ≤ 0 then none else some n
  | none => none

/-- Clause `if min is not None and max is not None and max < min: max = min`. -/
def raiseMaxToMin (mn mx : Option ℤ) : Option ℤ :=
  match mn, mx with
  | some a, some b => if b < a then some a else some b
  | _, mb => mb

/-- The `auth_mode` clause: strip-lower, falling back to the default
`authenticated` outside the two recognized modes. -/
def normAuthMode (v : SVal) : String :=
  if pyLower (pyStrip (pyStr v)) == "authenticated" ||
      pyLower (pyStrip (pyStr v)) == "offline" then
    pyLower (pyStrip (pyStr v))
  else "authenticated"

/-- `_merge_startup_settings(settings)`: RAM bounds coerced and clamped to
positive (max raised to min when both set and inverted), `auth_mode`
normalized to `authenticated`/`offline`, string fields stripped,
`backup_frequency` floored at 1 with a guarded fallback to the default, and
the feature toggles booleanized. -/
def merge_startup_settings (s : SettingsV) : Except PyErr StartupSettings := do
  let minr0 ← coerce_int (mergedGet s "min_ram_mb" .vNone)
  let maxr0 ← coerce_int (mergedGet s "max_ram_mb" .vNone)
  let minr := clampPos minr0
  let maxr := raiseMaxToMin minr (clampPos maxr0)
  let auth_mode := normAuthMode (mergedGet s "auth_mode" (.vStr "authenticated"))
  let game_profile := pyStrip (pyStr (svOrEmpty (mergedGet s "game_profile" (.vStr ""))))
  let ap := pyStrip (pyStr (svOrEmpty (mergedGet s "asset_pack" (.vStr "Assets.zip"))))
  let asset_pack := if ap.isEmpty then "Assets.zip" else ap
  let backup_directory := pyStrip (pyStr (svOrEmpty (mergedGet s "backup_directory" (.vStr ""))))
  let jvm_args := pyStrip (pyStr (svOrEmpty (mergedGet s "jvm_args" (.vStr ""))))
  let bf ← pyIntGuarded (mergedGet s "backup_frequency" (.vInt 30))
  let backup_frequency := match bf with
    | some n => max 1 n
    | none => (30 : ℤ)
  pure
    { min_ram_mb := minr
      max_ram_mb := maxr
      game_profile
      auth_mode
      automatic_update := svTruthy (mergedGet s "automatic_update" (.vBool false))
      allow_op := svTruthy (mergedGet s "allow_op" (.vBool true))
      accept_early_plugins := svTruthy (mergedGet s "accept_early_plugins" (.vBool false))
      asset_pack
      enable_backups := svTruthy (mergedGet s "enable_backups" (.vBool false))
      backup_directory
      backup_frequency
      disable_sentry := svTruthy (mergedGet s "disable_sentry" (.vBool false))
      jvm_args
      leverage_aot_cache := svTruthy (mergedGet s "leverage_aot_cache" (.vBool true)) }

/-! ## Concrete fixtures used by witness theorems -/

/-- A live registry entry (running process, open stdin). -/
def demoEntry : RegEntry :=
  { proc := { poll := none, stdin := some "", stdinBroken := false },
    info := initServerInfo "Srv" 100 none,
    port := 25565 }

/-- A registry in which instance 1 is already running. -/
def demoReg : Registry := [(1, demoEntry)]

/-- A start environment in which every filesystem precondition holds. -/
def demoEnv : StartEnv :=
  { jar_exists := true, assets_exists := true, spawn_ok := true,
    auth_token_path := none, server_name := "Srv", now := 100, port := 25565 }

/-- Five queue items used to exercise the capacity-3 eviction example. -/
def demoItems : List (String × String × String) :=
  [("u", "m1", "e"), ("u", "m2", "e"), ("u", "m3", "e"),
   ("u", "m4", "e"), ("u", "m5", "e")]

/-- A webhook settings table with one enabled chat hook. -/
def demoWebhooks : String → Option WebhookEntry := fun et =>
  if et == "player_chat" then
    some { url := "http://hook", enabled := true, template := "" }
  else none

/-- A chat event payload. -/
def demoPayload : EventPayload :=
  { type := some "player_chat", player := some "Bob", uuid := none,
    world := none, cause := none, message := some "hi", tps := none,
    mspt := none, timestamp := none }

/-- A monitor state with an outstanding persistence attempt on the
single-candidate list. -/
def demoPersistState : MonState :=
  { info := { initServerInfo "Srv" 100 none with
      auth_status_requested := true,
      auth_persistence_attempted := true,
      auth_persistence_types := some ["Encrypted"] },
    buffer := [], auth_command_sent := false,
    pending_auth_url := none, pending_auth_code := none }

/-- A monitor state whose persistence candidates are exhausted. -/
def demoExhaustedState : MonState :=
  { info := { initServerInfo "Srv" 100 none with
      auth_status_requested := true,
      auth_persistence_index := 1,
      auth_persistence_exhausted := true,
      auth_persistence_types := some ["Encrypted"] },
    buffer := [], auth_command_sent := false,
    pending_auth_url := none, pending_auth_code := none }

/-- Normalization output on an empty settings dict (all defaults). -/
def defaultStartupSettings : StartupSettings :=
  { min_ram_mb := none, max_ram_mb := none, game_profile := "",
    auth_mode := "authenticated", automatic_update := false, allow_op := true,
    accept_early_plugins := false, asset_pack := "Assets.zip",
    enable_backups := false, backup_directory := "", backup_frequency := 30,
    disable_sentry := false, jvm_args := "" , leverage_aot_cache := true }

/- ======================================================================
   Theorems
   ====================================================================== -/

/-- Dict-membership characterization of registry lookup. -/
theorem regFind_isSome_iff (reg : Registry) (sid : Nat) :
    (regFind reg sid).isSome = true ↔ sid ∈ reg.map Prod.fst := by
  induction reg with
  | nil => simp [regFind]
  | cons p rest ih =>
    by_cases h : p.1 = sid
    · simp [regFind, List.find?, h]
    · have hbe : (p.1 == sid) = false := by simp [h]
      simp only [regFind, List.find?, hbe] at ih ⊢
      simp only [List.map_cons, List.mem_cons]
      rw [ih]
      constructor
      · exact Or.inr
      · rintro (hc | hc)
        · exact absurd hc.symm h
        · exact hc

/-- C1: a `start_server` call for an instance id already present in
`_running_servers` returns failure without spawning a process or touching
the registry, and `start_server` preserves the one-entry-per-id shape of
the registry (it only ever inserts an id that was absent). -/
theorem c1_start_server_duplicate_rejected (env : StartEnv) (reg : Registry) (sid : Nat) :
    ((regFind reg sid).isSome = true → start_server env reg sid = (false, reg, 0)) ∧
    ((reg.map Prod.fst).Nodup → (((start_server env reg sid).2.1).map Prod.fst).Nodup) := by
  constructor
  · intro h
    simp [start_server, h]
  · intro hnd
    by_cases h : (regFind reg sid).isSome = true
    · simp [start_server, h, hnd]
    · have hmem : sid ∉ reg.map Prod.fst := by
        rw [← regFind_isSome_iff]
        simpa using h
      have hfalse : (regFind reg sid).isSome = false := by
        simpa using h
      simp only [start_server, hfalse]
      split
      · simpa using hnd
      · split
        · simpa using hnd
        · split
          · simpa using hnd
          · split
            · simpa using hnd
            · simpa [List.nodup_append, hmem] using hnd

/-- Witness for C1 at a concrete registry where instance 1 already runs. -/
theorem c1_start_server_duplicate_rejected_witness :
    start_server demoEnv demoReg 1 = (false, demoReg, 0) ∧
    (((start_server demoEnv demoReg 1).2.1).map Prod.fst).Nodup :=
  ⟨(c1_start_server_duplicate_rejected demoEnv demoReg 1).1 (by decide),
   (c1_start_server_duplicate_rejected demoEnv demoReg 1).2 (by decide)⟩

/-- C9: `send_command` returns failure (a boolean, by construction never an
exception) exactly when the instance is unregistered, the process has
exited, stdin is unavailable, or the write/flush fails; and on success the
registered process's captured stdin grows by exactly `command + '\n'`. -/
theorem c9_send_command_contract (reg : Registry) (sid : Nat) (command : String) :
    ((send_command reg sid command).1 = false ↔
      regFind reg sid = none ∨
      ∃ e, regFind reg sid = some e ∧
        ((e.proc.poll).isSome = true ∨ e.proc.stdin = none ∨
          e.proc.stdinBroken = true)) ∧
    (∀ e buf, regFind reg sid = some e → e.proc.stdin = some buf →
      (send_command reg sid command).1 = true →
      (send_command reg sid command).2 =
        regSet reg sid
          { e with proc := { e.proc with stdin := some (buf ++ command ++ "\n") } }) := by
  constructor
  · cases hfind : regFind reg sid with
    | none => simp [send_command, hfind]
    | some e =>
      simp only [send_command, hfind]
      cases hpoll : e.proc.poll with
      | some code => simp [hpoll]
      | none =>
        cases hstdin : e.proc.stdin with
        | none => simp [hstdin]
        | some buf =>
          cases hbrk : e.proc.stdinBroken with
          | true => simp [hbrk]
          | false => simp [hbrk, hstdin, hpoll]
  · intro e buf hfind hstdin _hok
    simp only [send_command, hfind, hstdin]
    cases hpoll : e.proc.poll with
    | some code =>
      exfalso
      simp [send_command, hfind, hpoll] at _hok
    | none =>
      cases hbrk : e.proc.stdinBroken with
      | true =>
        exfalso
        simp [send_command, hfind, hpoll, hstdin, hbrk] at _hok
      | false => simp

/-- Witness for C9: sending `stop` to a live instance appends it to the
captured stdin. -/
theorem c9_send_command_contract_witness :
    (send_command demoReg 1 "stop").2 =
      regSet demoReg 1
        { demoEntry with proc :=
            { demoEntry.proc with stdin := some ("" ++ "stop" ++ "\n") } } :=
  (c9_send_command_contract demoReg 1 "stop").2 demoEntry "" (by decide) (by decide)
    (by decide)

/-- The clamp always yields `none` or a positive value. -/
theorem clampPos_spec (o : Option ℤ) :
    clampPos o = none ∨ ∃ n, clampPos o = some n ∧ 0 < n := by
  cases o with
  | none => exact Or.inl rfl
  | some n =>
    by_cases h : n ≤ 0
    · exact Or.inl (by simp [clampPos, h])
    · exact Or.inr ⟨n, by simp [clampPos, h], by omega⟩

/-- Raising the max to the min keeps `none`/positive and enforces order. -/
theorem raiseMaxToMin_spec (mn mx : Option ℤ) :
    (∀ a b, mn = some a → raiseMaxToMin mn mx = some b → a ≤ b) ∧
    (mx = none ∨ (∃ n, mx = some n ∧ 0 < n) →
      raiseMaxToMin mn mx = none ∨
        (∃ n, raiseMaxToMin mn mx = some n ∧ 0 < n) ∨
        ∃ a, mn = some a ∧ raiseMaxToMin mn mx = some a) := by
  constructor
  · intro a b ha hb
    cases mx with
    | none => subst ha; simp [raiseMaxToMin] at hb
    | some c =>
      subst ha
      by_cases h : c < a
      · simp [raiseMaxToMin, h] at hb; omega
      · simp [raiseMaxToMin, h] at hb; omega
  · intro hmx
    cases mn with
    | none =>
      rcases hmx with h | ⟨n, hn, hpos⟩
      · exact Or.inl (by simp [raiseMaxToMin, h])
      · exact Or.inr (Or.inl ⟨n, by simp [raiseMaxToMin, hn], hpos⟩)
    | some a =>
      cases mx with
      | none => exact Or.inl (by simp [raiseMaxToMin])
      | some c =>
        by_cases h : c < a
        · exact Or.inr (Or.inr ⟨a, rfl, by simp [raiseMaxToMin, h]⟩)
        · rcases hmx with hc | ⟨n, hn, hpos⟩
          · cases hc
          · exact Or.inr (Or.inl ⟨c, by simp [raiseMaxToMin, h],
              by simp at hn; omega⟩)

/-- The normalized auth mode is always one of the two recognized values. -/
theorem normAuthMode_spec (v : SVal) :
    normAuthMode v = "authenticated" ∨ normAuthMode v = "offline" := by
  unfold normAuthMode
  split
  · rename_i h
    rcases (Bool.or_eq_true _ _).mp h with h1 | h1 <;> rw [beq_iff_eq] at h1
    · exact Or.inl h1
    · exact Or.inr h1
  · exact Or.inl rfl

/-- C10 counterexample: the normalization does not return on every
malformed input — a `min_ram_mb` of the JSON string `"inf"` parses to an
infinite float, and `int()` then raises an `OverflowError` that
`_coerce_int` (which catches only `ValueError`) propagates. -/
theorem c10_merge_raises_on_inf :
    merge_startup_settings (.dict [("min_ram_mb", .vStr "inf")]) =
      .error .overflowError := by rfl

/-- C10 (amended): whenever the normalization returns, the RAM bounds are
each `None` or positive, an inverted pair is fixed by raising max to min,
and the auth mode is `authenticated` or `offline` with `authenticated` the
fallback; it does not return on every input — besides the infinite floats
(uncaught `OverflowError`), a direct float NaN makes `int()` raise a
`ValueError` that the string-branch-only `try` does not catch. -/
theorem c10_merge_normalizes :
    (∀ s m, merge_startup_settings s = .ok m →
      (m.min_ram_mb = none ∨ ∃ n, m.min_ram_mb = some n ∧ 0 < n) ∧
      (m.max_ram_mb = none ∨ ∃ n, m.max_ram_mb = some n ∧ 0 < n) ∧
      (∀ a b, m.min_ram_mb = some a → m.max_ram_mb = some b → a ≤ b) ∧
      (m.auth_mode = "authenticated" ∨ m.auth_mode = "offline")) ∧
    (∀ a b : ℤ, 0 < b → b < a →
      ∃ m, merge_startup_settings
          (.dict [("min_ram_mb", .vInt a), ("max_ram_mb", .vInt b)]) = .ok m ∧
        m.min_ram_mb = some a ∧ m.max_ram_mb = some a) ∧
    (merge_startup_settings (.dict [("min_ram_mb", .vFloat .nan)]) =
      .error .valueError) := by
  refine ⟨?_, ?_, by rfl⟩
  · intro s m h
    simp only [merge_startup_settings, bind, Except.bind] at h
    cases h1 : coerce_int (mergedGet s "min_ram_mb" .vNone) with
    | error e => rw [h1] at h; cases h
    | ok v1 =>
      rw [h1] at h
      cases h2 : coerce_int (mergedGet s "max_ram_mb" .vNone) with
      | error e => rw [h2] at h; cases h
      | ok v2 =>
        rw [h2] at h
        cases h3 : pyIntGuarded (mergedGet s "backup_frequency" (.vInt 30)) with
        | error e => rw [h3] at h; cases h
        | ok v3 =>
          rw [h3] at h
          simp only [pure, Except.pure, Except.ok.injEq] at h
          subst h
          refine ⟨clampPos_spec v1, ?_, ?_, normAuthMode_spec _⟩
          · rcases (raiseMaxToMin_spec (clampPos v1) (clampPos v2)).2
                (clampPos_spec v2) with hno | hpos | ⟨a, ha, hres⟩
            · exact Or.inl hno
            · exact Or.inr hpos
            · rcases clampPos_spec v1 with hno1 | ⟨n, hn, hpos1⟩
              · rw [hno1] at ha; cases ha
              · rw [hn] at ha
                have heq : n = a := by injection ha
                exact Or.inr ⟨a, hres, heq ▸ hpos1⟩
          · intro a b ha hb
            exact (raiseMaxToMin_spec (clampPos v1) (clampPos v2)).1 a b ha hb
  · intro a b hb hba
    have hna : ¬ (a ≤ 0) := by omega
    have hnb : ¬ (b ≤ 0) := by omega
    refine ⟨_, rfl, ?_, ?_⟩ <;>
      simp [merge_startup_settings, mergedGet, svGet, coerce_int, clampPos,
        raiseMaxToMin, hna, hnb, hba, bind, Except.bind, pure, Except.pure]

/-- Witness for C10: the inverted pair (512, 256) is normalized to
(512, 512), and the empty dict normalizes to the defaults, which satisfy
every clamp property. -/
theorem c10_merge_normalizes_witness :
    (∃ m, merge_startup_settings
        (.dict [("min_ram_mb", .vInt 512), ("max_ram_mb", .vInt 256)]) = .ok m ∧
      m.min_ram_mb = some 512 ∧ m.max_ram_mb = some 512) ∧
    ((defaultStartupSettings.min_ram_mb = none ∨
        ∃ n, defaultStartupSettings.min_ram_mb = some n ∧ 0 < n) ∧
      (defaultStartupSettings.max_ram_mb = none ∨
        ∃ n, defaultStartupSettings.max_ram_mb = some n ∧ 0 < n) ∧
      (∀ a b, defaultStartupSettings.min_ram_mb = some a →
        defaultStartupSettings.max_ram_mb = some b → a ≤ b) ∧
      (defaultStartupSettings.auth_mode = "authenticated" ∨
        defaultStartupSettings.auth_mode = "offline")) :=
  ⟨c10_merge_normalizes.2.1 512 256 (by norm_num) (by norm_num),
   c10_merge_normalizes.1 (.dict []) defaultStartupSettings (by rfl)⟩

/-- The attempt loop never makes more attempts than it has fuel. -/
theorem sendAttempts_attempts_le (oracle : Nat → AttemptResult) (haveSid : Bool) :
    ∀ fuel attempt d, (sendAttempts oracle haveSid attempt fuel d).attempts ≤ fuel := by
  intro fuel
  induction fuel with
  | zero => intro attempt d; simp [sendAttempts]
  | succ n ih =>
    intro attempt d
    simp only [sendAttempts]
    split
    · simp
    · split
      · have := ih (attempt + 1) d
        simp
        omega
      · split
        · have := ih (attempt + 1) d
          simp
          omega
        · simp
    · split
      · have := ih (attempt + 1) d
        simp
        omega
      · simp

/-- C3: `_send_webhook` makes at most 4 HTTP attempts; under persistent 429
responses it sleeps the Retry-After hint clamped to `[1, 30]` before each
retry and on the final-attempt 429 increments both the failed and the
rate-limited counters; any HTTP error that is neither 429 nor 5xx fails
permanently at the first attempt with no sleep and no rate-limit count; and
persistent 5xx responses back off linearly (`attempt` seconds). -/
theorem c3_send_webhook_retry :
    (∀ oracle url content haveSid d,
      (send_webhook oracle url content haveSid d).attempts ≤ 4) ∧
    (∀ (ra : Nat → ℚ) (url c : String) (d : WebhookDiag),
      url.isEmpty = false → c.isEmpty = false → c.length ≤ 1900 →
      send_webhook (fun i => .httpError 429 (ra i)) url (some c) true d =
        { result := false,
          sleeps := [min (max (ra 1) 1) 30, min (max (ra 2) 1) 30,
                     min (max (ra 3) 1) 30],
          attempts := 4,
          diag := noteFailure d true }) ∧
    (∀ (oracle : Nat → AttemptResult) (url c : String) (d : WebhookDiag)
        (code : Nat) (ra : ℚ),
      url.isEmpty = false → c.isEmpty = false → c.length ≤ 1900 →
      oracle 1 = .httpError code ra → code ≠ 429 → ¬(500 ≤ code ∧ code < 600) →
      send_webhook oracle url (some c) true d =
        { result := false, sleeps := [], attempts := 1,
          diag := noteFailure d false }) ∧
    (∀ (url c : String) (d : WebhookDiag) (code : Nat),
      url.isEmpty = false → c.isEmpty = false → c.length ≤ 1900 →
      500 ≤ code → code < 600 → code ≠ 429 →
      send_webhook (fun _ => .httpError code 0) url (some c) true d =
        { result := false, sleeps := [(1 : ℚ), 2, 3], attempts := 4,
          diag := noteFailure d false }) := by
  refine ⟨?_, ?_, ?_, ?_⟩
  · intro oracle url content haveSid d
    unfold send_webhook
    split
    · simp
    · split
      · simp
      · split
        · simp
        · exact sendAttempts_attempts_le oracle haveSid 4 1 d
  · intro ra url c d hurl hc hlen
    simp only [send_webhook, trim_webhook_message, hurl, hlen, if_pos, hc,
      Bool.false_eq_true, if_false, if_true, webhookMaxAttempts]
    norm_num [sendAttempts, webhookMaxAttempts]
  · intro oracle url c d code ra hurl hc hlen h1 hcode hrange
    have hbe : (code == 429) = false := by simp [hcode]
    have h5 : (500 ≤ code && code < 600 && decide (1 < webhookMaxAttempts)) = false := by
      simp [webhookMaxAttempts]
      omega
    simp only [send_webhook, trim_webhook_message, hurl, hlen, if_pos, hc,
      Bool.false_eq_true, if_false, if_true]
    simp [sendAttempts, h1, hbe, h5]
  · intro url c d code hurl hc hlen h5lo h5hi hne
    have hbe : (code == 429) = false := by simp [hne]
    simp only [send_webhook, trim_webhook_message, hurl, hlen, if_pos, hc,
      Bool.false_eq_true, if_false, if_true]
    norm_num [sendAttempts, webhookMaxAttempts, hbe, h5lo, h5hi]

/-- Witness for C3 at concrete 429/404/503 oracles. -/
theorem c3_send_webhook_retry_witness :
    (send_webhook (fun _ => .httpError 429 7) "http://h" (some "hi") true diag0).attempts ≤ 4 ∧
    send_webhook (fun i => .httpError 429 ((7 : ℚ))) "http://h" (some "hi") true diag0 =
      { result := false, sleeps := [7, 7, 7], attempts := 4,
        diag := noteFailure diag0 true } ∧
    send_webhook (fun _ => .httpError 404 0) "http://h" (some "hi") true diag0 =
      { result := false, sleeps := [], attempts := 1,
        diag := noteFailure diag0 false } ∧
    send_webhook (fun _ => .httpError 503 0) "http://h" (some "hi") true diag0 =
      { result := false, sleeps := [(1 : ℚ), 2, 3], attempts := 4,
        diag := noteFailure diag0 false } := by
  refine ⟨c3_send_webhook_retry.1 _ _ _ _ _, ?_, ?_, ?_⟩
  · have h := c3_send_webhook_retry.2.1 (fun _ => (7 : ℚ)) "http://h" "hi" diag0
      (by decide) (by decide) (by decide)
    simpa using h
  · exact c3_send_webhook_retry.2.2.1 (fun _ => .httpError 404 0) "http://h" "hi"
      diag0 404 0 (by decide) (by decide) (by decide) rfl (by decide) (by omega)
  · exact c3_send_webhook_retry.2.2.2 "http://h" "hi" diag0 503
      (by decide) (by decide) (by decide) (by omega) (by omega) (by omega)

/-- One bounded enqueue on a queue holding the last `c` of `pre`: the queue
ends up holding the last `c` of `pre ++ [x]`, and the drop counter ticks
exactly when the queue was full. -/
theorem webhookEnqueue_step (c : Nat) (hc : 1 ≤ c) (pre : List (String × String × String))
    (d : WebhookDiag) (x : String × String × String) :
    webhookEnqueue (⟨c, takeLastN c pre⟩, d) x =
      (⟨c, takeLastN c (pre ++ [x])⟩,
       if c ≤ pre.length then noteEnqueued (noteDropped d) else noteEnqueued d) := by
  have hlen : (takeLastN c pre).length = pre.length - (pre.length - c) := by
    simp [takeLastN]
  by_cases hfull : c ≤ pre.length
  · have hq : wqFull ⟨c, takeLastN c pre⟩ = true := by
      simp only [wqFull]
      simp [hlen]
      omega
    simp only [webhookEnqueue, hq, Bool.not_true, Bool.false_eq_true, if_false, if_pos hfull]
    have htail : (takeLastN c pre).tail = pre.drop (pre.length - c + 1) := by
      simp [takeLastN, List.tail_drop]
    have htarget : takeLastN c (pre ++ [x]) =
        pre.drop (pre.length - c + 1) ++ [x] := by
      simp only [takeLastN, List.length_append, List.length_cons, List.length_nil]
      rw [show pre.length + 1 - c = pre.length - c + 1 by omega]
      exact List.drop_append_of_le_length (by omega)
    simp [htail, htarget]
  · have hsmall : takeLastN c pre = pre := by
      simp only [takeLastN]
      rw [show pre.length - c = 0 by omega]
      exact List.drop_zero pre
    have htarget : takeLastN c (pre ++ [x]) = pre ++ [x] := by
      simp only [takeLastN]
      rw [show (pre ++ [x]).length - c = 0 by (simp; omega)]
      exact List.drop_zero _
    rw [hsmall]
    have hq : wqFull ⟨c, pre⟩ = false := by
      simp [wqFull]
      omega
    simp [webhookEnqueue, hq, htarget, hfull]

/-- Folding enqueues over the bounded queue keeps exactly the most recent
`c` items and counts every overflow drop. -/
theorem webhookEnqueue_fold (c : Nat) (hc : 1 ≤ c) :
    ∀ (xs pre : List (String × String × String)) (d : WebhookDiag),
      List.foldl webhookEnqueue (⟨c, takeLastN c pre⟩, d) xs =
        (⟨c, takeLastN c (pre ++ xs)⟩,
         { d with enqueued_total := d.enqueued_total + xs.length,
                  dropped_total := d.dropped_total + (xs.length - (c - pre.length)) }) := by
  intro xs
  induction xs with
  | nil =>
    intro pre d
    simp
  | cons x rest ih =>
    intro pre d
    rw [List.foldl_cons, webhookEnqueue_step c hc pre d x]
    rw [ih (pre ++ [x])]
    have hl : (pre ++ [x]) ++ rest = pre ++ x :: rest := by simp
    by_cases hfull : c ≤ pre.length
    · simp only [if_pos hfull, noteEnqueued, noteDropped, hl, Prod.mk.injEq,
        WQueue.mk.injEq, WebhookDiag.mk.injEq, List.length_append,
        List.length_cons, List.length_nil]
      and_intros
      all_goals first | rfl | trivial | omega
    · simp only [if_neg hfull, noteEnqueued, hl, Prod.mk.injEq,
        WQueue.mk.injEq, WebhookDiag.mk.injEq, List.length_append,
        List.length_cons, List.length_nil]
      and_intros
      all_goals first | rfl | trivial | omega

/-- C4: the dispatch queue is created with capacity 1000; enqueuing via the
never-blocking `_dispatch_webhook` tail evicts the oldest pending entry on
overflow, so after `n` enqueues the queue holds exactly the most recent
(at most capacity-many) items in FIFO order, the enqueued counter ticks `n`
times and the dropped counter ticks once per overflow; and a
dispatch-eligible event reduces to exactly one such bounded enqueue of its
rendered message. -/
theorem c4_webhook_queue_eviction :
    WEBHOOK_QUEUE_MAXSIZE = 1000 ∧
    (∀ (c : Nat) (xs : List (String × String × String)) (d : WebhookDiag),
      1 ≤ c →
      List.foldl webhookEnqueue (⟨c, []⟩, d) xs =
        (⟨c, takeLastN c xs⟩,
         { d with enqueued_total := d.enqueued_total + xs.length,
                  dropped_total := d.dropped_total + (xs.length - c) })) ∧
    (∀ (webhooks : String → Option WebhookEntry) (p : EventPayload)
        (qd : WQueue × WebhookDiag) (et : String) (entry : WebhookEntry)
        (msg : String),
      p.type = some et → et.isEmpty = false →
      webhooks et = some entry → entry.enabled = true →
      entry.url.isEmpty = false →
      render_message et p
          (if entry.template.isEmpty then none else some entry.template) =
        some msg →
      dispatch_webhook webhooks p qd = webhookEnqueue qd (entry.url, msg, et)) := by
  refine ⟨rfl, ?_, ?_⟩
  · intro c xs d hc
    have h := webhookEnqueue_fold c hc xs [] d
    simpa [takeLastN] using h
  · intro webhooks p qd et entry msg hty hne hwh hen hurl hrender
    simp [dispatch_webhook, hty, hne, hwh, hen, hurl, hrender]

/-- Witness for C4: capacity 3, five enqueues — the three most recent items
survive, two drops are counted, and a concrete chat event dispatches as one
bounded enqueue. -/
theorem c4_webhook_queue_eviction_witness :
    (List.foldl webhookEnqueue (⟨3, []⟩, diag0) demoItems =
      (⟨3, takeLastN 3 demoItems⟩,
       { diag0 with enqueued_total := 0 + 5, dropped_total := 0 + 2 }) ∧
      takeLastN 3 demoItems = [("u", "m3", "e"), ("u", "m4", "e"), ("u", "m5", "e")]) ∧
    dispatch_webhook demoWebhooks demoPayload (⟨3, []⟩, diag0) =
      webhookEnqueue (⟨3, []⟩, diag0) ("http://hook", "💬 **Bob**: hi", "player_chat") := by
  refine ⟨⟨?_, by decide⟩, ?_⟩
  · have h := c4_webhook_queue_eviction.2.1 3 demoItems diag0 (by norm_num)
    simpa [diag0, demoItems] using h
  · exact c4_webhook_queue_eviction.2.2 demoWebhooks demoPayload _ "player_chat"
      { url := "http://hook", enabled := true, template := "" } "💬 **Bob**: hi"
      rfl rfl rfl rfl rfl (by rfl)

/-- The last `n` elements of a list never number more than `n`. -/
theorem takeLastN_length_le {α : Type} (n : Nat) (l : List α) :
    (takeLastN n l).length ≤ n := by
  simp only [takeLastN, List.length_drop]
  omega

/-- Lists no longer than `n` are returned whole. -/
theorem takeLastN_of_le {α : Type} (n : Nat) (l : List α) (h : l.length ≤ n) :
    takeLastN n l = l := by
  unfold takeLastN
  rw [show l.length - n = 0 by omega]
  exact List.drop_zero _

/-- Re-trimming an already trimmed list is the same as trimming once. -/
theorem takeLastN_append_takeLastN {α : Type} (n : Nat) (xs ys : List α) :
    takeLastN n (takeLastN n xs ++ ys) = takeLastN n (xs ++ ys) := by
  by_cases h : xs.length ≤ n
  · rw [takeLastN_of_le n xs h]
  · unfold takeLastN
    have hlen1 : (xs.drop (xs.length - n)).length = n := by simp; omega
    have hL : (xs.drop (xs.length - n) ++ ys).length - n = ys.length := by
      rw [List.length_append, hlen1]; omega
    have hR : (xs ++ ys).length - n = (xs.length - n) + ys.length := by
      rw [List.length_append]; omega
    rw [hL, hR, ← List.drop_drop,
      List.drop_append_of_le_length (by omega : xs.length - n ≤ xs.length)]

/-- One console line is appended and the buffer trimmed to its last 1000
entries. -/
theorem bufferAppend_eq_takeLast (buf : List String) (clean : String) :
    bufferAppend buf clean = takeLastN MAX_BUFFER_LINES (buf ++ [clean]) := by
  unfold bufferAppend takeLastN
  split
  · rfl
  · rename_i h
    rw [show (buf ++ [clean]).length - MAX_BUFFER_LINES = 0 by
      simp only [List.length_append, List.length_cons, List.length_nil] at h ⊢
      omega]
    exact (List.drop_zero _).symm

/-- The monitor's per-iteration effect on the console buffer: a dequeued
line is cleaned, appended and trimmed; a queue timeout leaves it alone. -/
theorem monitorStep_buffer (P : List String) (sid : Nat) (now : ℤ) (st : MonState)
    (item : Option (String × String)) :
    (monitorStep P sid now st item).1.buffer =
      match item with
      | none => st.buffer
      | some (_, line) => bufferAppend st.buffer (ansiStrip line) := by
  cases item with
  | none => simp only [monitorStep]
  | some p =>
    cases p with
    | mk stream line => simp only [monitorStep]

/-- C7: after any sequence of monitor iterations starting from a buffer
within bounds, the console buffer equals exactly the most recent (up to
1000) appended cleaned lines — initial contents included — in append
order, and in particular never exceeds 1000 entries. -/
theorem c7_console_buffer_bounded (P : List String) (sid : Nat) :
    ∀ (evs : List (ℤ × Option (String × String))) (st : MonState),
      st.buffer.length ≤ MAX_BUFFER_LINES →
      (monitorRun P sid st evs).1.buffer =
        takeLastN MAX_BUFFER_LINES
          (st.buffer ++ evs.filterMap (fun e => e.2.map (fun it => ansiStrip it.2))) ∧
      (monitorRun P sid st evs).1.buffer.length ≤ MAX_BUFFER_LINES := by
  intro evs
  induction evs with
  | nil =>
    intro st hlen
    simp only [monitorRun, List.filterMap_nil, List.append_nil]
    exact ⟨(takeLastN_of_le _ _ hlen).symm, hlen⟩
  | cons ev rest ih =>
    intro st hlen
    cases ev with
    | mk t it =>
      have hrun : (monitorRun P sid st ((t, it) :: rest)).1 =
          (monitorRun P sid (monitorStep P sid t st it).1 rest).1 := rfl
      cases it with
      | none =>
        have hb : (monitorStep P sid t st none).1.buffer = st.buffer :=
          monitorStep_buffer P sid t st none
        have hfm : List.filterMap (fun e => Option.map (fun it => ansiStrip it.2) e.2)
            (((t, none) : ℤ × Option (String × String)) :: rest) =
            List.filterMap (fun e => Option.map (fun it => ansiStrip it.2) e.2) rest := rfl
        have ihr := ih (monitorStep P sid t st none).1 (by rw [hb]; exact hlen)
        rw [hrun, hfm]
        rw [hb] at ihr
        exact ihr
      | some p =>
        cases p with
        | mk stream line =>
          have hb : (monitorStep P sid t st (some (stream, line))).1.buffer =
              bufferAppend st.buffer (ansiStrip line) :=
            monitorStep_buffer P sid t st (some (stream, line))
          have hfm : List.filterMap (fun e => Option.map (fun it => ansiStrip it.2) e.2)
              (((t, some (stream, line)) : ℤ × Option (String × String)) :: rest) =
              ansiStrip line ::
                List.filterMap (fun e => Option.map (fun it => ansiStrip it.2) e.2) rest := rfl
          have hble : (monitorStep P sid t st (some (stream, line))).1.buffer.length ≤
              MAX_BUFFER_LINES := by
            rw [hb, bufferAppend_eq_takeLast]
            exact takeLastN_length_le _ _
          have ihr := ih (monitorStep P sid t st (some (stream, line))).1 hble
          rw [hrun, hfm]
          constructor
          · rw [ihr.1, hb, bufferAppend_eq_takeLast, takeLastN_append_takeLastN]
            simp
          · exact ihr.2

/-- Witness for C7: a fresh instance processing two lines holds the banner
plus both cleaned lines, within bounds. -/
theorem c7_console_buffer_bounded_witness :
    (monitorRun AUTH_PERSISTENCE_TYPES 7 (initMonState "Srv" 100 none)
        [(102, some ("stdout", "hello")), (103, some ("stderr", "\x1b[31mworld\x1b[0m"))]).1.buffer =
      takeLastN MAX_BUFFER_LINES
        (["Starting server process..."] ++ ["hello", "world"]) ∧
    (monitorRun AUTH_PERSISTENCE_TYPES 7 (initMonState "Srv" 100 none)
        [(102, some ("stdout", "hello")), (103, some ("stderr", "\x1b[31mworld\x1b[0m"))]).1.buffer.length ≤
      MAX_BUFFER_LINES := by
  have h := c7_console_buffer_bounded AUTH_PERSISTENCE_TYPES 7
    [(102, some ("stdout", "hello")), (103, some ("stderr", "\x1b[31mworld\x1b[0m"))]
    (initMonState "Srv" 100 none) (by decide)
  exact ⟨h.1.trans (by decide), h.2⟩

/-! ### Persistence-retry lemmas (C2) -/

/-- `request_auth_login` never touches the persistence bookkeeping and never
issues a persistence command. -/
theorem request_auth_login_persist (now : ℤ) (info : ServerInfo) :
    (request_auth_login now info).2.1.auth_persistence_attempted =
        info.auth_persistence_attempted ∧
    (request_auth_login now info).2.1.auth_persistence_done =
        info.auth_persistence_done ∧
    (request_auth_login now info).2.1.auth_persistence_index =
        info.auth_persistence_index ∧
    (request_auth_login now info).2.1.auth_persistence_exhausted =
        info.auth_persistence_exhausted ∧
    (request_auth_login now info).2.1.auth_persistence_types =
        info.auth_persistence_types ∧
    ∀ t, Cmd.authPersistence t ∉ (request_auth_login now info).2.2 := by
  unfold request_auth_login
  split <;> simp

/-- `send_auth_persistence` with the cursor past the end of an
already-installed candidate list: flags exhaustion, issues nothing. -/
theorem send_auth_persistence_exhausts (P : List String) (info : ServerInfo)
    (T : List String) (ht : info.auth_persistence_types = some T)
    (hge : T.length ≤ info.auth_persistence_index) :
    send_auth_persistence P info =
      ({ info with auth_persistence_types := some T,
                   auth_persistence_exhausted := true }, []) := by
  unfold send_auth_persistence
  rw [ht]
  simp only [Option.getD_some]
  rw [dif_neg (by omega)]

/-- `send_auth_persistence` with the cursor in range: marks the attempt and
issues the cursor's candidate. -/
theorem send_auth_persistence_issues (P : List String) (info : ServerInfo)
    (T : List String) (ht : info.auth_persistence_types = some T)
    (hlt : info.auth_persistence_index < T.length) :
    send_auth_persistence P info =
      ({ info with auth_persistence_types := some T,
                   auth_persistence_last := some (T.get ⟨info.auth_persistence_index, hlt⟩),
                   auth_persistence_attempted := true },
       [Cmd.authPersistence (T.get ⟨info.auth_persistence_index, hlt⟩)]) := by
  unfold send_auth_persistence
  rw [ht]
  simp only [Option.getD_some]
  rw [dif_pos hlt]

/-- The URL, code, broadcast and no-tokens/auth-status branches leave the
persistence bookkeeping alone and issue no persistence command. -/
theorem branches_preserve_persist (now : ℤ) (clean : String) (sid : Nat) (a : Acc) :
    (∀ b, (b = branchNoTokens now clean a ∨ b = branchUrl clean a ∨
           b = branchCode clean a ∨ b = branchBroadcast sid a ∨
           b = branchOkBad now clean a) →
      b.info.auth_persistence_attempted = a.info.auth_persistence_attempted ∧
      b.info.auth_persistence_done = a.info.auth_persistence_done ∧
      b.info.auth_persistence_index = a.info.auth_persistence_index ∧
      b.info.auth_persistence_exhausted = a.info.auth_persistence_exhausted ∧
      b.info.auth_persistence_types = a.info.auth_persistence_types ∧
      ∀ t, Cmd.authPersistence t ∈ b.cmds → Cmd.authPersistence t ∈ a.cmds) := by
  intro b hb
  rcases hb with hb | hb | hb | hb | hb <;> subst hb
  · unfold branchNoTokens
    split
    · have h := request_auth_login_persist now a.info
      refine ⟨h.1, h.2.1, h.2.2.1, h.2.2.2.1, h.2.2.2.2.1, ?_⟩
      intro t hmem
      simp only [List.mem_append] at hmem
      rcases hmem with hmem | hmem
      · exact hmem
      · exact absurd hmem (h.2.2.2.2.2 t)
    · simp
  · unfold branchUrl
    cases authUrlSearch clean <;> simp
  · unfold branchCode
    cases authCodeSearch clean
    · simp
    · simp only
      split <;> simp
  · unfold branchBroadcast
    split
    · dsimp only
      split <;> simp
    · split
      · dsimp only
        split <;> simp
      · simp
  · unfold branchOkBad
    split
    · dsimp only
      split <;> simp
    · split
      · have h := request_auth_login_persist now a.info
        refine ⟨h.1, h.2.1, h.2.2.1, h.2.2.2.1, h.2.2.2.2.1, ?_⟩
        intro t hmem
        simp only [List.mem_append] at hmem
        rcases hmem with hmem | hmem
        · exact hmem
        · exact absurd hmem (h.2.2.2.2.2 t)
      · simp

/-- The success branch cannot revive an exhausted persistence flow: its
`send_auth_persistence` call sees the cursor past the end, keeps the
exhausted flag and issues nothing. -/
theorem branchSuccess_exhausted (P : List String) (clean : String) (a : Acc)
    (T : List String)
    (hex : a.info.auth_persistence_exhausted = true)
    (ht : a.info.auth_persistence_types = some T)
    (hge : T.length ≤ a.info.auth_persistence_index) :
    (branchSuccess P clean a).info.auth_persistence_exhausted = true ∧
    (branchSuccess P clean a).info.auth_persistence_types = some T ∧
    T.length ≤ (branchSuccess P clean a).info.auth_persistence_index ∧
    ∀ t, Cmd.authPersistence t ∈ (branchSuccess P clean a).cmds →
      Cmd.authPersistence t ∈ a.cmds := by
  unfold branchSuccess
  split
  · dsimp only
    split
    · rw [send_auth_persistence_exhausts P _ T (by simpa using ht) (by simpa using hge)]
      simp [hex, hge]
    · simp [hex, ht, hge]
  · simp [hex, ht, hge]

/-- The persistence branch is inert once exhausted: the retry arm is
guarded on the exhausted flag and the acknowledgment arm only sets the
done flag. -/
theorem branchPersist_exhausted (P : List String) (clean : String) (a : Acc)
    (T : List String)
    (hex : a.info.auth_persistence_exhausted = true)
    (ht : a.info.auth_persistence_types = some T)
    (hge : T.length ≤ a.info.auth_persistence_index) :
    (branchPersist P clean a).info.auth_persistence_exhausted = true ∧
    (branchPersist P clean a).info.auth_persistence_types = some T ∧
    T.length ≤ (branchPersist P clean a).info.auth_persistence_index ∧
    ∀ t, Cmd.authPersistence t ∈ (branchPersist P clean a).cmds →
      Cmd.authPersistence t ∈ a.cmds := by
  unfold branchPersist
  split
  · rename_i hcond
    rw [hex] at hcond
    simp at hcond
  · split
    · simp [hex, ht, hge]
    · simp [hex, ht, hge]

/-- The whole per-line pipeline preserves exhaustion and issues no
persistence command from an exhausted state. -/
theorem processAcc_exhausted_safe (P : List String) (sid : Nat) (now : ℤ)
    (clean : String) (a : Acc) (T : List String)
    (hex : a.info.auth_persistence_exhausted = true)
    (ht : a.info.auth_persistence_types = some T)
    (hge : T.length ≤ a.info.auth_persistence_index) :
    (processAcc P sid now clean a).info.auth_persistence_exhausted = true ∧
    (processAcc P sid now clean a).info.auth_persistence_types = some T ∧
    T.length ≤ (processAcc P sid now clean a).info.auth_persistence_index ∧
    ∀ t, Cmd.authPersistence t ∈ (processAcc P sid now clean a).cmds →
      Cmd.authPersistence t ∈ a.cmds := by
  have h1 := branches_preserve_persist now clean sid a
    (branchNoTokens now clean a) (Or.inl rfl)
  have h2 := branches_preserve_persist now clean sid (branchNoTokens now clean a)
    (branchUrl clean (branchNoTokens now clean a)) (Or.inr (Or.inl rfl))
  set a1 := branchNoTokens now clean a with ha1
  set a2 := branchUrl clean a1 with ha2
  have h3 := branches_preserve_persist now clean sid a2
    (branchCode clean a2) (Or.inr (Or.inr (Or.inl rfl)))
  set a3 := branchCode clean a2 with ha3
  have h4 := branches_preserve_persist now clean sid a3
    (branchBroadcast sid a3) (Or.inr (Or.inr (Or.inr (Or.inl rfl))))
  set a4 := branchBroadcast sid a3 with ha4
  have hex4 : a4.info.auth_persistence_exhausted = true := by
    rw [h4.2.2.2.1, h3.2.2.2.1, h2.2.2.2.1, h1.2.2.2.1, hex]
  have ht4 : a4.info.auth_persistence_types = some T := by
    rw [h4.2.2.2.2.1, h3.2.2.2.2.1, h2.2.2.2.2.1, h1.2.2.2.2.1, ht]
  have hge4 : T.length ≤ a4.info.auth_persistence_index := by
    rw [h4.2.2.1, h3.2.2.1, h2.2.2.1, h1.2.2.1]
    exact hge
  have h5 := branchSuccess_exhausted P clean a4 T hex4 ht4 hge4
  set a5 := branchSuccess P clean a4 with ha5
  have h6 := branches_preserve_persist now clean sid a5
    (branchOkBad now clean a5) (Or.inr (Or.inr (Or.inr (Or.inr rfl))))
  set a6 := branchOkBad now clean a5 with ha6
  have hex6 : a6.info.auth_persistence_exhausted = true := by
    rw [h6.2.2.2.1, h5.1]
  have ht6 : a6.info.auth_persistence_types = some T := by
    rw [h6.2.2.2.2.1, h5.2.1]
  have hge6 : T.length ≤ a6.info.auth_persistence_index := by
    rw [h6.2.2.1]
    exact h5.2.2.1
  have h7 := branchPersist_exhausted P clean a6 T hex6 ht6 hge6
  have hpa : processAcc P sid now clean a = branchPersist P clean a6 := rfl
  rw [hpa]
  refine ⟨h7.1, h7.2.1, h7.2.2.1, ?_⟩
  intro t hmem
  exact h1.2.2.2.2.2 t (h2.2.2.2.2.2 t (h3.2.2.2.2.2 t (h4.2.2.2.2.2 t
    (h5.2.2.2 t (h6.2.2.2.2.2 t (h7.2.2.2 t hmem))))))

/-- The scheduled status check never touches persistence bookkeeping and
never issues a persistence command. -/
theorem scheduledStatus_persist (now : ℤ) (info : ServerInfo) :
    (scheduledStatus now info).1.auth_persistence_attempted =
        info.auth_persistence_attempted ∧
    (scheduledStatus now info).1.auth_persistence_done =
        info.auth_persistence_done ∧
    (scheduledStatus now info).1.auth_persistence_index =
        info.auth_persistence_index ∧
    (scheduledStatus now info).1.auth_persistence_exhausted =
        info.auth_persistence_exhausted ∧
    (scheduledStatus now info).1.auth_persistence_types =
        info.auth_persistence_types ∧
    ∀ t, Cmd.authPersistence t ∉ (scheduledStatus now info).2 := by
  unfold scheduledStatus
  split <;> simp

/-- One monitor iteration from an exhausted persistence state keeps it
exhausted and issues no persistence command. -/
theorem monitorStep_exhausted_safe (P : List String) (sid : Nat) (now : ℤ)
    (st : MonState) (it : Option (String × String)) (T : List String)
    (hex : st.info.auth_persistence_exhausted = true)
    (ht : st.info.auth_persistence_types = some T)
    (hge : T.length ≤ st.info.auth_persistence_index) :
    (monitorStep P sid now st it).1.info.auth_persistence_exhausted = true ∧
    (monitorStep P sid now st it).1.info.auth_persistence_types = some T ∧
    T.length ≤ (monitorStep P sid now st it).1.info.auth_persistence_index ∧
    ∀ t, Cmd.authPersistence t ∉ (monitorStep P sid now st it).2.1 := by
  have hpre := scheduledStatus_persist now st.info
  cases it with
  | none =>
    have e1 : (monitorStep P sid now st none).1.info =
        (scheduledStatus now st.info).1 := rfl
    have e2 : (monitorStep P sid now st none).2.1 =
        (scheduledStatus now st.info).2 := rfl
    rw [e1, e2, hpre.2.2.2.1, hpre.2.2.2.2.1, hpre.2.2.1]
    exact ⟨hex, ht, hge, hpre.2.2.2.2.2⟩
  | some p =>
    cases p with
    | mk stream line =>
      have e1 : (monitorStep P sid now st (some (stream, line))).1.info =
          (processAcc P sid now (ansiStrip line)
            ⟨(scheduledStatus now st.info).1, st.auth_command_sent,
             st.pending_auth_url, st.pending_auth_code, [],
             [Emit.consoleOutput (ansiStrip line)]⟩).info := rfl
      have e2 : (monitorStep P sid now st (some (stream, line))).2.1 =
          (scheduledStatus now st.info).2 ++
            (processAcc P sid now (ansiStrip line)
              ⟨(scheduledStatus now st.info).1, st.auth_command_sent,
               st.pending_auth_url, st.pending_auth_code, [],
               [Emit.consoleOutput (ansiStrip line)]⟩).cmds := rfl
      have hsafe := processAcc_exhausted_safe P sid now (ansiStrip line)
        ⟨(scheduledStatus now st.info).1, st.auth_command_sent,
         st.pending_auth_url, st.pending_auth_code, [],
         [Emit.consoleOutput (ansiStrip line)]⟩ T
        (by rw [show (⟨(scheduledStatus now st.info).1, st.auth_command_sent,
            st.pending_auth_url, st.pending_auth_code, [],
            [Emit.consoleOutput (ansiStrip line)]⟩ : Acc).info =
            (scheduledStatus now st.info).1 from rfl, hpre.2.2.2.1]; exact hex)
        (by rw [show (⟨(scheduledStatus now st.info).1, st.auth_command_sent,
            st.pending_auth_url, st.pending_auth_code, [],
            [Emit.consoleOutput (ansiStrip line)]⟩ : Acc).info =
            (scheduledStatus now st.info).1 from rfl, hpre.2.2.2.2.1]; exact ht)
        (by rw [show (⟨(scheduledStatus now st.info).1, st.auth_command_sent,
            st.pending_auth_url, st.pending_auth_code, [],
            [Emit.consoleOutput (ansiStrip line)]⟩ : Acc).info =
            (scheduledStatus now st.info).1 from rfl, hpre.2.2.1]; exact hge)
      rw [e1, e2]
      refine ⟨hsafe.1, hsafe.2.1, hsafe.2.2.1, ?_⟩
      intro t hmem
      rw [List.mem_append] at hmem
      rcases hmem with hmem | hmem
      · exact hpre.2.2.2.2.2 t hmem
      · exact absurd (hsafe.2.2.2 t hmem) (List.not_mem_nil _)

/-- Any run of the monitor from an exhausted persistence state keeps it
exhausted and never issues another persistence command. -/
theorem monitorRun_exhausted_safe (P : List String) (sid : Nat) :
    ∀ (evs : List (ℤ × Option (String × String))) (st : MonState) (T : List String),
      st.info.auth_persistence_exhausted = true →
      st.info.auth_persistence_types = some T →
      T.length ≤ st.info.auth_persistence_index →
      (monitorRun P sid st evs).1.info.auth_persistence_exhausted = true ∧
      ∀ t, Cmd.authPersistence t ∉ (monitorRun P sid st evs).2.1 := by
  intro evs
  induction evs with
  | nil =>
    intro st T hex ht hge
    exact ⟨hex, by simp [monitorRun]⟩
  | cons ev rest ih =>
    intro st T hex ht hge
    cases ev with
    | mk t it =>
      have hstep := monitorStep_exhausted_safe P sid t st it T hex ht hge
      have hrest := ih (monitorStep P sid t st it).1 T hstep.1 hstep.2.1 hstep.2.2.1
      have e1 : (monitorRun P sid st ((t, it) :: rest)).1 =
          (monitorRun P sid (monitorStep P sid t st it).1 rest).1 := rfl
      have e2 : (monitorRun P sid st ((t, it) :: rest)).2.1 =
          (monitorStep P sid t st it).2.1 ++
            (monitorRun P sid (monitorStep P sid t st it).1 rest).2.1 := rfl
      rw [e1, e2]
      refine ⟨hrest.1, ?_⟩
      intro c hmem
      rw [List.mem_append] at hmem
      rcases hmem with hmem | hmem
      · exact hstep.2.2.2 c hmem
      · exact hrest.2 c hmem

/-- A persistence-mode-rejected line processed while an attempt is
outstanding and the flow is neither done nor exhausted advances the cursor
by exactly one and retries: the next candidate's command is issued when one
remains, otherwise the exhausted flag is set and nothing is issued. -/
theorem processAcc_unknownType (P : List String) (sid : Nat) (now : ℤ)
    (clean : String) (a : Acc) (T : List String)
    (hu : persistUnknownM clean = true)
    (hsucc : authSuccessM clean = false)
    (hatt : a.info.auth_persistence_attempted = true)
    (hdone : a.info.auth_persistence_done = false)
    (hex : a.info.auth_persistence_exhausted = false)
    (ht : a.info.auth_persistence_types = some T)
    (hnopers : ∀ t, Cmd.authPersistence t ∉ a.cmds) :
    (processAcc P sid now clean a).info.auth_persistence_index =
      a.info.auth_persistence_index + 1 ∧
    (processAcc P sid now clean a).info.auth_persistence_types = some T ∧
    ((processAcc P sid now clean a).info.auth_persistence_exhausted = true ↔
      T.length ≤ a.info.auth_persistence_index + 1) ∧
    ∀ t, Cmd.authPersistence t ∈ (processAcc P sid now clean a).cmds ↔
      (a.info.auth_persistence_index + 1 < T.length ∧
        some t = T.get? (a.info.auth_persistence_index + 1)) := by
  have h1 := branches_preserve_persist now clean sid a
    (branchNoTokens now clean a) (Or.inl rfl)
  set a1 := branchNoTokens now clean a with ha1
  have h2 := branches_preserve_persist now clean sid a1
    (branchUrl clean a1) (Or.inr (Or.inl rfl))
  set a2 := branchUrl clean a1 with ha2
  have h3 := branches_preserve_persist now clean sid a2
    (branchCode clean a2) (Or.inr (Or.inr (Or.inl rfl)))
  set a3 := branchCode clean a2 with ha3
  have h4 := branches_preserve_persist now clean sid a3
    (branchBroadcast sid a3) (Or.inr (Or.inr (Or.inr (Or.inl rfl))))
  set a4 := branchBroadcast sid a3 with ha4
  have h5 : branchSuccess P clean a4 = a4 := by
    unfold branchSuccess
    rw [hsucc]
    simp
  have h6 := branches_preserve_persist now clean sid a4
    (branchOkBad now clean a4) (Or.inr (Or.inr (Or.inr (Or.inr rfl))))
  set a6 := branchOkBad now clean a4 with ha6
  have hatt6 : a6.info.auth_persistence_attempted = true := by
    rw [h6.1, h4.1, h3.1, h2.1, h1.1, hatt]
  have hdone6 : a6.info.auth_persistence_done = false := by
    rw [h6.2.1, h4.2.1, h3.2.1, h2.2.1, h1.2.1, hdone]
  have hex6 : a6.info.auth_persistence_exhausted = false := by
    rw [h6.2.2.2.1, h4.2.2.2.1, h3.2.2.2.1, h2.2.2.2.1, h1.2.2.2.1, hex]
  have ht6 : a6.info.auth_persistence_types = some T := by
    rw [h6.2.2.2.2.1, h4.2.2.2.2.1, h3.2.2.2.2.1, h2.2.2.2.2.1, h1.2.2.2.2.1, ht]
  have hidx6 : a6.info.auth_persistence_index = a.info.auth_persistence_index := by
    rw [h6.2.2.1, h4.2.2.1, h3.2.2.1, h2.2.2.1, h1.2.2.1]
  have hmem6 : ∀ t, Cmd.authPersistence t ∉ a6.cmds := by
    intro t hm
    exact hnopers t (h1.2.2.2.2.2 t (h2.2.2.2.2.2 t (h3.2.2.2.2.2 t
      (h4.2.2.2.2.2 t (h5 ▸ h6.2.2.2.2.2 t hm)))))
  have hpa : processAcc P sid now clean a = branchPersist P clean a6 := by
    unfold processAcc
    rw [← ha1, ← ha2, ← ha3, ← ha4, h5, ← ha6]
  rw [hpa]
  unfold branchPersist
  rw [if_pos (by rw [hu, hatt6, hdone6, hex6]; rfl)]
  dsimp only
  by_cases hlt : a.info.auth_persistence_index + 1 < T.length
  · rw [send_auth_persistence_issues P _ T (by simpa [hidx6] using ht6)
      (by simp [hidx6]; omega)]
    refine ⟨by simp [hidx6], by simp, ?_, ?_⟩
    · simp [hex6, hidx6]
      omega
    · intro t
      simp only [List.mem_append, List.mem_singleton]
      constructor
      · rintro (hm | hm)
        · exact absurd hm (hmem6 t)
        · rcases hm with hm
          injection hm with hm
          subst hm
          refine ⟨by simpa [hidx6] using hlt, ?_⟩
          rw [List.get?_eq_get (by simpa [hidx6] using hlt)]
          simp [hidx6]
      · rintro ⟨hl, hget⟩
        right
        rw [List.get?_eq_get (by omega : a.info.auth_persistence_index + 1 < T.length)]
          at hget
        injection hget with hget
        rw [hget]
        simp [hidx6]
  · rw [send_auth_persistence_exhausts P _ T (by simpa [hidx6] using ht6)
      (by simp [hidx6]; omega)]
    refine ⟨by simp [hidx6], by simp, ?_, ?_⟩
    · simp [hidx6]
      omega
    · intro t
      simp only [List.append_nil]
      constructor
      · intro hm
        exact absurd hm (hmem6 t)
      · rintro ⟨hl, _⟩
        omega

/-- C2: a persistence-mode-rejected line (`auth.persistence.unknownType`)
observed while an attempt is outstanding and not yet done or exhausted
advances `auth_persistence_index` by exactly one and issues the next
candidate's command when one remains; once the cursor reaches the length of
the candidate list (of any size) the exhausted flag is set, no command is
issued, and from an exhausted state no monitor run ever issues another
automatic persistence command. -/
theorem c2_persistence_retry :
    (∀ (P : List String) (sid : Nat) (now : ℤ) (st : MonState)
        (stream line : String) (T : List String),
      persistUnknownM (ansiStrip line) = true →
      authSuccessM (ansiStrip line) = false →
      st.info.auth_persistence_attempted = true →
      st.info.auth_persistence_done = false →
      st.info.auth_persistence_exhausted = false →
      st.info.auth_persistence_types = some T →
      (monitorStep P sid now st (some (stream, line))).1.info.auth_persistence_index =
        st.info.auth_persistence_index + 1 ∧
      ((monitorStep P sid now st (some (stream, line))).1.info.auth_persistence_exhausted = true ↔
        T.length ≤ st.info.auth_persistence_index + 1) ∧
      (∀ t, Cmd.authPersistence t ∈ (monitorStep P sid now st (some (stream, line))).2.1 ↔
        (st.info.auth_persistence_index + 1 < T.length ∧
          some t = T.get? (st.info.auth_persistence_index + 1)))) ∧
    (∀ (P : List String) (sid : Nat) (evs : List (ℤ × Option (String × String)))
        (st : MonState) (T : List String),
      st.info.auth_persistence_exhausted = true →
      st.info.auth_persistence_types = some T →
      T.length ≤ st.info.auth_persistence_index →
      (monitorRun P sid st evs).1.info.auth_persistence_exhausted = true ∧
      ∀ t, Cmd.authPersistence t ∉ (monitorRun P sid st evs).2.1) := by
  constructor
  · intro P sid now st stream line T hu hsucc hatt hdone hex ht
    have hpre := scheduledStatus_persist now st.info
    have e1 : (monitorStep P sid now st (some (stream, line))).1.info =
        (processAcc P sid now (ansiStrip line)
          ⟨(scheduledStatus now st.info).1, st.auth_command_sent,
           st.pending_auth_url, st.pending_auth_code, [],
           [Emit.consoleOutput (ansiStrip line)]⟩).info := rfl
    have e2 : (monitorStep P sid now st (some (stream, line))).2.1 =
        (scheduledStatus now st.info).2 ++
          (processAcc P sid now (ansiStrip line)
            ⟨(scheduledStatus now st.info).1, st.auth_command_sent,
             st.pending_auth_url, st.pending_auth_code, [],
             [Emit.consoleOutput (ansiStrip line)]⟩).cmds := rfl
    have eacc : (⟨(scheduledStatus now st.info).1, st.auth_command_sent,
        st.pending_auth_url, st.pending_auth_code, [],
        [Emit.consoleOutput (ansiStrip line)]⟩ : Acc).info =
        (scheduledStatus now st.info).1 := rfl
    have hadv := processAcc_unknownType P sid now (ansiStrip line)
      ⟨(scheduledStatus now st.info).1, st.auth_command_sent,
       st.pending_auth_url, st.pending_auth_code, [],
       [Emit.consoleOutput (ansiStrip line)]⟩ T hu hsucc
      (by rw [eacc, hpre.1]; exact hatt)
      (by rw [eacc, hpre.2.1]; exact hdone)
      (by rw [eacc, hpre.2.2.2.1]; exact hex)
      (by rw [eacc, hpre.2.2.2.2.1]; exact ht)
      (by intro t hm; exact absurd hm (List.not_mem_nil _))
    rw [e1, e2]
    rw [eacc, hpre.2.2.1] at hadv
    refine ⟨hadv.1, hadv.2.2.1, ?_⟩
    intro t
    rw [List.mem_append]
    constructor
    · rintro (hm | hm)
      · exact absurd hm (hpre.2.2.2.2.2 t)
      · exact (hadv.2.2.2 t).mp hm
    · intro hcond
      exact Or.inr ((hadv.2.2.2 t).mpr hcond)
  · intro P sid evs st T hex ht hge
    exact monitorRun_exhausted_safe P sid evs st T hex ht hge

/-- Witness for C2: on the single-candidate list `["Encrypted"]`, one
rejection advances the cursor from 0 to 1, exhausts the list and issues no
further command; a subsequent run from the exhausted state issues none
either. -/
theorem c2_persistence_retry_witness :
    ((monitorStep AUTH_PERSISTENCE_TYPES 7 102 demoPersistState
        (some ("stdout", "auth.persistence.unknownType"))).1.info.auth_persistence_index =
      demoPersistState.info.auth_persistence_index + 1 ∧
     ((monitorStep AUTH_PERSISTENCE_TYPES 7 102 demoPersistState
        (some ("stdout", "auth.persistence.unknownType"))).1.info.auth_persistence_exhausted = true ↔
      (["Encrypted"] : List String).length ≤ demoPersistState.info.auth_persistence_index + 1) ∧
     (∀ t, Cmd.authPersistence t ∈ (monitorStep AUTH_PERSISTENCE_TYPES 7 102 demoPersistState
        (some ("stdout", "auth.persistence.unknownType"))).2.1 ↔
       (demoPersistState.info.auth_persistence_index + 1 < (["Encrypted"] : List String).length ∧
         some t = (["Encrypted"] : List String).get? (demoPersistState.info.auth_persistence_index + 1)))) ∧
    ((monitorRun AUTH_PERSISTENCE_TYPES 7 demoExhaustedState
        [(102, some ("stdout", "auth.persistence.unknownType"))]).1.info.auth_persistence_exhausted = true ∧
     ∀ t, Cmd.authPersistence t ∉ (monitorRun AUTH_PERSISTENCE_TYPES 7 demoExhaustedState
        [(102, some ("stdout", "auth.persistence.unknownType"))]).2.1) :=
  ⟨c2_persistence_retry.1 AUTH_PERSISTENCE_TYPES 7 102 demoPersistState
      "stdout" "auth.persistence.unknownType" ["Encrypted"]
      (by decide) (by decide) (by decide) (by decide) (by decide) (by decide),
   c2_persistence_retry.2 AUTH_PERSISTENCE_TYPES 7
      [(102, some ("stdout", "auth.persistence.unknownType"))]
      demoExhaustedState ["Encrypted"] (by decide) (by decide) (by decide)⟩

/-! ### Auth-broadcast de-duplication lemmas (C6) -/

/-- `request_auth_login` leaves the broadcast-relevant fields alone (it may
only raise the pending flag). -/
theorem request_auth_login_bc (now : ℤ) (info : ServerInfo) :
    (request_auth_login now info).2.1.last_auth_payload = info.last_auth_payload ∧
    (request_auth_login now info).2.1.auth_url = info.auth_url ∧
    (request_auth_login now info).2.1.server_name = info.server_name ∧
    ((request_auth_login now info).2.1.auth_pending = info.auth_pending ∨
      (request_auth_login now info).2.1.auth_pending = true) := by
  unfold request_auth_login
  split <;> simp

/-- The no-tokens branch leaves the broadcast-relevant state alone. -/
theorem branchNoTokens_bc (now : ℤ) (clean : String) (a : Acc) :
    (branchNoTokens now clean a).emits = a.emits ∧
    (branchNoTokens now clean a).pUrl = a.pUrl ∧
    (branchNoTokens now clean a).pCode = a.pCode ∧
    (branchNoTokens now clean a).info.last_auth_payload = a.info.last_auth_payload ∧
    (branchNoTokens now clean a).info.auth_url = a.info.auth_url ∧
    (branchNoTokens now clean a).info.server_name = a.info.server_name ∧
    ((branchNoTokens now clean a).info.auth_pending = a.info.auth_pending ∨
      (branchNoTokens now clean a).info.auth_pending = true) := by
  unfold branchNoTokens
  split
  · have h := request_auth_login_bc now a.info
    exact ⟨rfl, rfl, rfl, h.1, h.2.1, h.2.2.1, h.2.2.2⟩
  · simp

/-- With no `auth_ok` match, the status branch leaves the
broadcast-relevant state alone. -/
theorem branchOkBad_bc (now : ℤ) (clean : String) (a : Acc)
    (hok : authOkM clean = false) :
    (branchOkBad now clean a).emits = a.emits ∧
    (branchOkBad now clean a).pUrl = a.pUrl ∧
    (branchOkBad now clean a).pCode = a.pCode ∧
    (branchOkBad now clean a).info.last_auth_payload = a.info.last_auth_payload ∧
    (branchOkBad now clean a).info.auth_url = a.info.auth_url ∧
    (branchOkBad now clean a).info.server_name = a.info.server_name ∧
    ((branchOkBad now clean a).info.auth_pending = a.info.auth_pending ∨
      (branchOkBad now clean a).info.auth_pending = true) := by
  unfold branchOkBad
  rw [hok]
  simp only [Bool.false_eq_true, if_false]
  split
  · have h := request_auth_login_bc now a.info
    exact ⟨rfl, rfl, rfl, h.1, h.2.1, h.2.2.1, h.2.2.2⟩
  · simp

/-- The persistence branch leaves the broadcast-relevant state alone. -/
theorem branchPersist_bc (P : List String) (clean : String) (a : Acc) :
    (branchPersist P clean a).emits = a.emits ∧
    (branchPersist P clean a).pUrl = a.pUrl ∧
    (branchPersist P clean a).pCode = a.pCode ∧
    (branchPersist P clean a).info.last_auth_payload = a.info.last_auth_payload ∧
    (branchPersist P clean a).info.auth_url = a.info.auth_url ∧
    (branchPersist P clean a).info.server_name = a.info.server_name ∧
    (branchPersist P clean a).info.auth_pending = a.info.auth_pending := by
  unfold branchPersist
  split
  · dsimp only
    unfold send_auth_persistence
    dsimp only
    split <;> simp
  · split <;> simp

/-- A matched URL line installs the canonical URL as both the loop-local
pending URL and the shared `auth_url`, and raises the pending flag. -/
theorem branchUrl_char (clean : String) (a : Acc) (raw : String)
    (hurl : authUrlSearch clean = some raw) :
    branchUrl clean a =
      { a with
          pUrl := some (canonUrl raw),
          info := { a.info with
            auth_url := some (canonUrl raw)
            auth_pending := true } } := by
  unfold branchUrl
  rw [hurl]

/-- Code detection with a truthy `auth_url` already in place only records
the code. -/
theorem branchCode_char (clean : String) (a : Acc) :
    (authCodeSearch clean = none → branchCode clean a = a) ∧
    (∀ c, authCodeSearch clean = some c → truthyOS a.info.auth_url = true →
      branchCode clean a =
        { a with pCode := some c,
                 info := { a.info with auth_code := some c } }) := by
  constructor
  · intro h
    unfold branchCode
    rw [h]
  · intro c hc htr
    unfold branchCode
    rw [hc]
    dsimp only
    rw [if_neg (by simp [htr])]

/-- The broadcast branch with a truthy pending URL: emit-and-remember on a
fresh payload, pure suppression on a payload equal to the last one sent. -/
theorem branchBroadcast_char (sid : Nat) (a : Acc)
    (htr : truthyOS a.pUrl = true) (hp : a.info.auth_pending = true) :
    (some (⟨sid, a.info.server_name, (a.pUrl).getD "", strOr a.pCode "See URL"⟩ : AuthPayload) ≠
        a.info.last_auth_payload →
      branchBroadcast sid a =
        { a with
            pUrl := none, pCode := none,
            emits := a.emits ++
              [Emit.authRequired
                ⟨sid, a.info.server_name, (a.pUrl).getD "", strOr a.pCode "See URL"⟩],
            info := { a.info with
              last_auth_payload :=
                some ⟨sid, a.info.server_name, (a.pUrl).getD "", strOr a.pCode "See URL"⟩ } }) ∧
    (some (⟨sid, a.info.server_name, (a.pUrl).getD "", strOr a.pCode "See URL"⟩ : AuthPayload) =
        a.info.last_auth_payload →
      branchBroadcast sid a = { a with pUrl := none, pCode := none }) := by
  constructor
  · intro hne
    unfold branchBroadcast
    rw [if_pos (by rw [htr, hp]; rfl)]
    dsimp only
    rw [if_pos hne]
  · intro heq
    unfold branchBroadcast
    rw [if_pos (by rw [htr, hp]; rfl)]
    dsimp only
    rw [if_neg (by simpa using heq)]

/-- The canonical URL of a non-empty raw match is non-empty. -/
theorem canonUrl_truthy (raw : String) (hraw : truthyOS (some raw) = true) :
    truthyOS (some (canonUrl raw)) = true := by
  unfold canonUrl
  cases userCodeSearch raw with
  | none => exact hraw
  | some code =>
    simp only [truthyOS, String.data_append, Bool.not_eq_true']
    simp [List.isEmpty]

/-- Every pipeline branch either keeps `last_auth_payload`, resets it to
`None`, or stores exactly a payload it broadcast; and none ever removes an
already-emitted event. -/
theorem branch_last_disjunction (P : List String) (sid : Nat) (now : ℤ)
    (clean : String) (a : Acc) :
    ∀ b, (b = branchNoTokens now clean a ∨ b = branchUrl clean a ∨
          b = branchCode clean a ∨ b = branchBroadcast sid a ∨
          b = branchSuccess P clean a ∨ b = branchOkBad now clean a ∨
          b = branchPersist P clean a) →
      (b.info.last_auth_payload = a.info.last_auth_payload ∨
       b.info.last_auth_payload = none ∨
       ∃ p, b.info.last_auth_payload = some p ∧ Emit.authRequired p ∈ b.emits) ∧
      (∀ e, e ∈ a.emits → e ∈ b.emits) := by
  intro b hb
  rcases hb with hb | hb | hb | hb | hb | hb | hb <;> subst hb
  · have h := branchNoTokens_bc now clean a
    exact ⟨Or.inl h.2.2.2.1, by rw [h.1]; intro e he; exact he⟩
  · unfold branchUrl
    cases authUrlSearch clean <;> simp
  · unfold branchCode
    cases authCodeSearch clean
    · simp
    · dsimp only
      split <;> simp
  · unfold branchBroadcast
    split
    · dsimp only
      split
      · refine ⟨Or.inr (Or.inr ⟨_, rfl, ?_⟩), ?_⟩
        · simp
        · intro e he
          simp [he]
      · simp
    · split
      · dsimp only
        split
        · refine ⟨Or.inr (Or.inr ⟨_, rfl, ?_⟩), ?_⟩
          · simp
          · intro e he
            simp [he]
        · simp
      · simp
  · unfold branchSuccess
    split
    · dsimp only
      split
      · unfold send_auth_persistence
        dsimp only
        split <;> simp <;> exact fun e he => Or.inl he
      · simp
        exact fun e he => Or.inl he
    · simp
  · unfold branchOkBad
    split
    · dsimp only
      split <;> simp <;> try exact fun e he => Or.inl he
    · split
      · have h := request_auth_login_bc now a.info
        exact ⟨Or.inl h.1, by intro e he; exact he⟩
      · simp
  · have h := branchPersist_bc P clean a
    exact ⟨Or.inl h.2.2.2.1, by rw [h.1]; intro e he; exact he⟩

/-- Pipeline-level version: after processing one line, `last_auth_payload`
is either unchanged, `None`, or a payload whose broadcast is in the
emitted events. -/
theorem processAcc_last (P : List String) (sid : Nat) (now : ℤ)
    (clean : String) (a : Acc) :
    ((processAcc P sid now clean a).info.last_auth_payload =
        a.info.last_auth_payload ∨
     (processAcc P sid now clean a).info.last_auth_payload = none ∨
     ∃ p, (processAcc P sid now clean a).info.last_auth_payload = some p ∧
       Emit.authRequired p ∈ (processAcc P sid now clean a).emits) ∧
    (∀ e, e ∈ a.emits → e ∈ (processAcc P sid now clean a).emits) := by
  have h1 := branch_last_disjunction P sid now clean a _ (Or.inl rfl)
  set a1 := branchNoTokens now clean a with ha1
  have h2 := branch_last_disjunction P sid now clean a1 _ (Or.inr (Or.inl rfl))
  set a2 := branchUrl clean a1 with ha2
  have h3 := branch_last_disjunction P sid now clean a2 _
    (Or.inr (Or.inr (Or.inl rfl)))
  set a3 := branchCode clean a2 with ha3
  have h4 := branch_last_disjunction P sid now clean a3 _
    (Or.inr (Or.inr (Or.inr (Or.inl rfl))))
  set a4 := branchBroadcast sid a3 with ha4
  have h5 := branch_last_disjunction P sid now clean a4 _
    (Or.inr (Or.inr (Or.inr (Or.inr (Or.inl rfl)))))
  set a5 := branchSuccess P clean a4 with ha5
  have h6 := branch_last_disjunction P sid now clean a5 _
    (Or.inr (Or.inr (Or.inr (Or.inr (Or.inr (Or.inl rfl))))))
  set a6 := branchOkBad now clean a5 with ha6
  have h7 := branch_last_disjunction P sid now clean a6 _
    (Or.inr (Or.inr (Or.inr (Or.inr (Or.inr (Or.inr rfl))))))
  have hpa : processAcc P sid now clean a = branchPersist P clean a6 := by
    unfold processAcc
    rw [← ha1, ← ha2, ← ha3, ← ha4, ← ha5, ← ha6]
  rw [hpa]
  have hmono : ∀ e, e ∈ a.emits → e ∈ (branchPersist P clean a6).emits := by
    intro e he
    exact h7.2 e (h6.2 e (h5.2 e (h4.2 e (h3.2 e (h2.2 e (h1.2 e he))))))
  refine ⟨?_, hmono⟩
  have step : ∀ (x y : Acc),
      (y.info.last_auth_payload = x.info.last_auth_payload ∨
        y.info.last_auth_payload = none ∨
        ∃ p, y.info.last_auth_payload = some p ∧ Emit.authRequired p ∈ y.emits) →
      (∀ e, e ∈ x.emits → e ∈ y.emits) →
      (x.info.last_auth_payload = a.info.last_auth_payload ∨
        x.info.last_auth_payload = none ∨
        ∃ p, x.info.last_auth_payload = some p ∧ Emit.authRequired p ∈ x.emits) →
      (y.info.last_auth_payload = a.info.last_auth_payload ∨
        y.info.last_auth_payload = none ∨
        ∃ p, y.info.last_auth_payload = some p ∧ Emit.authRequired p ∈ y.emits) := by
    intro x y hy hmon hx
    rcases hy with hy | hy | hy
    · rw [hy]
      rcases hx with hx | hx | ⟨p, hp, hmem⟩
      · exact Or.inl hx
      · exact Or.inr (Or.inl hx)
      · exact Or.inr (Or.inr ⟨p, hp, hmon _ hmem⟩)
    · exact Or.inr (Or.inl hy)
    · exact Or.inr (Or.inr hy)
  exact step a6 _ h7.1 h7.2 (step a5 a6 h6.1 h6.2 (step a4 a5 h5.1 h5.2
    (step a3 a4 h4.1 h4.2 (step a2 a3 h3.1 h3.2 (step a1 a2 h2.1 h2.2
      (step a a1 h1.1 h1.2 (Or.inl rfl)))))))

/-- The scheduled status check leaves the broadcast-relevant fields alone. -/
theorem scheduledStatus_bc (now : ℤ) (info : ServerInfo) :
    (scheduledStatus now info).1.last_auth_payload = info.last_auth_payload ∧
    (scheduledStatus now info).1.auth_url = info.auth_url ∧
    (scheduledStatus now info).1.server_name = info.server_name ∧
    (scheduledStatus now info).1.auth_pending = info.auth_pending := by
  unfold scheduledStatus
  split <;> simp

/-- Processing a line that matches the auth-URL pattern (and neither the
success nor the status-ok pattern), with no carried-over pending code:
the step broadcasts the canonical URL+code payload exactly once when it
differs from the last one sent, and suppresses the broadcast entirely when
it is identical, leaving the stored payload untouched. -/
theorem monitorStep_url_pass (P : List String) (sid : Nat) (now : ℤ)
    (st : MonState) (stream line raw : String)
    (hurl : authUrlSearch (ansiStrip line) = some raw)
    (hraw : truthyOS (some raw) = true)
    (hsucc : authSuccessM (ansiStrip line) = false)
    (hok : authOkM (ansiStrip line) = false)
    (hcode : st.pending_auth_code = none) :
    (monitorStep P sid now st (some (stream, line))).1.pending_auth_code = none ∧
    (monitorStep P sid now st (some (stream, line))).1.info.server_name =
      st.info.server_name ∧
    (some (⟨sid, st.info.server_name, canonUrl raw,
        strOr (authCodeSearch (ansiStrip line)) "See URL"⟩ : AuthPayload) ≠
        st.info.last_auth_payload →
      (monitorStep P sid now st (some (stream, line))).2.2 =
        [Emit.consoleOutput (ansiStrip line),
         Emit.authRequired ⟨sid, st.info.server_name, canonUrl raw,
           strOr (authCodeSearch (ansiStrip line)) "See URL"⟩] ∧
      (monitorStep P sid now st (some (stream, line))).1.info.last_auth_payload =
        some ⟨sid, st.info.server_name, canonUrl raw,
          strOr (authCodeSearch (ansiStrip line)) "See URL"⟩) ∧
    (some (⟨sid, st.info.server_name, canonUrl raw,
        strOr (authCodeSearch (ansiStrip line)) "See URL"⟩ : AuthPayload) =
        st.info.last_auth_payload →
      (monitorStep P sid now st (some (stream, line))).2.2 =
        [Emit.consoleOutput (ansiStrip line)] ∧
      (monitorStep P sid now st (some (stream, line))).1.info.last_auth_payload =
        st.info.last_auth_payload) := by
  have hpre := scheduledStatus_bc now st.info
  have e1 : (monitorStep P sid now st (some (stream, line))).1 =
      ⟨(processAcc P sid now (ansiStrip line)
          ⟨(scheduledStatus now st.info).1, st.auth_command_sent,
           st.pending_auth_url, st.pending_auth_code, [],
           [Emit.consoleOutput (ansiStrip line)]⟩).info,
       bufferAppend st.buffer (ansiStrip line),
       (processAcc P sid now (ansiStrip line)
          ⟨(scheduledStatus now st.info).1, st.auth_command_sent,
           st.pending_auth_url, st.pending_auth_code, [],
           [Emit.consoleOutput (ansiStrip line)]⟩).sent,
       (processAcc P sid now (ansiStrip line)
          ⟨(scheduledStatus now st.info).1, st.auth_command_sent,
           st.pending_auth_url, st.pending_auth_code, [],
           [Emit.consoleOutput (ansiStrip line)]⟩).pUrl,
       (processAcc P sid now (ansiStrip line)
          ⟨(scheduledStatus now st.info).1, st.auth_command_sent,
           st.pending_auth_url, st.pending_auth_code, [],
           [Emit.consoleOutput (ansiStrip line)]⟩).pCode⟩ := rfl
  have e2 : (monitorStep P sid now st (some (stream, line))).2.2 =
      (processAcc P sid now (ansiStrip line)
        ⟨(scheduledStatus now st.info).1, st.auth_command_sent,
         st.pending_auth_url, st.pending_auth_code, [],
         [Emit.consoleOutput (ansiStrip line)]⟩).emits := rfl
  set clean := ansiStrip line with hcl
  set a0 : Acc := ⟨(scheduledStatus now st.info).1, st.auth_command_sent,
    st.pending_auth_url, st.pending_auth_code, [],
    [Emit.consoleOutput clean]⟩ with ha0
  have h1 := branchNoTokens_bc now clean a0
  set a1 := branchNoTokens now clean a0 with ha1
  have h2eq := branchUrl_char clean a1 raw hurl
  set a2 := branchUrl clean a1 with ha2
  have ha2pUrl : a2.pUrl = some (canonUrl raw) := by rw [h2eq]
  have ha2pCode : a2.pCode = a1.pCode := by rw [h2eq]
  have ha2url : a2.info.auth_url = some (canonUrl raw) := by rw [h2eq]
  have ha2pend : a2.info.auth_pending = true := by rw [h2eq]
  have ha2last : a2.info.last_auth_payload = a1.info.last_auth_payload := by
    rw [h2eq]
  have ha2name : a2.info.server_name = a1.info.server_name := by rw [h2eq]
  have ha2emits : a2.emits = a1.emits := by rw [h2eq]
  have h3c := branchCode_char clean a2
  have h3 : (branchCode clean a2).pUrl = some (canonUrl raw) ∧
      (branchCode clean a2).pCode = authCodeSearch clean ∧
      (branchCode clean a2).info.auth_pending = true ∧
      (branchCode clean a2).info.last_auth_payload = a1.info.last_auth_payload ∧
      (branchCode clean a2).info.server_name = a1.info.server_name ∧
      (branchCode clean a2).emits = a1.emits := by
    cases hcs : authCodeSearch clean with
    | none =>
      rw [h3c.1 hcs]
      exact ⟨ha2pUrl, by rw [ha2pCode, h1.2.2.1, ha0, hcode], ha2pend, ha2last,
        ha2name, ha2emits⟩
    | some c =>
      have htr : truthyOS a2.info.auth_url = true := by
        rw [ha2url]
        exact canonUrl_truthy raw hraw
      rw [h3c.2 c hcs htr]
      exact ⟨ha2pUrl, rfl, ha2pend, ha2last, ha2name, ha2emits⟩
  set a3 := branchCode clean a2 with ha3
  have hbb := branchBroadcast_char sid a3
    (by rw [h3.1]; exact canonUrl_truthy raw hraw) h3.2.2.1
  set a4 := branchBroadcast sid a3 with ha4
  have hpayload : (⟨sid, a3.info.server_name, (a3.pUrl).getD "",
      strOr a3.pCode "See URL"⟩ : AuthPayload) =
      ⟨sid, st.info.server_name, canonUrl raw,
        strOr (authCodeSearch clean) "See URL"⟩ := by
    rw [h3.1, h3.2.1, h3.2.2.2.2.1, h1.2.2.2.2.2.1]
    have : a0.info.server_name = st.info.server_name := by
      rw [ha0]
      exact hpre.2.2.1
    rw [this]
    rfl
  have ha3last : a3.info.last_auth_payload = st.info.last_auth_payload := by
    rw [h3.2.2.2.1, h1.2.2.2.1, ha0]
    exact hpre.1
  have h5 : branchSuccess P clean a4 = a4 := by
    unfold branchSuccess
    rw [hsucc]
    simp
  have h6 := branchOkBad_bc now clean a4 hok
  set a6 := branchOkBad now clean a4 with ha6
  have h7 := branchPersist_bc P clean a6
  have hpa : processAcc P sid now clean a0 = branchPersist P clean a6 := by
    unfold processAcc
    rw [← ha1, ← ha2, ← ha3, ← ha4, h5, ← ha6]
  refine ⟨?_, ?_, ?_, ?_⟩
  · rw [e1]
    show (processAcc P sid now clean a0).pCode = none
    rw [hpa, h7.2.2.1, h6.2.2.1]
    by_cases hd : some (⟨sid, a3.info.server_name, (a3.pUrl).getD "",
        strOr a3.pCode "See URL"⟩ : AuthPayload) = a3.info.last_auth_payload
    · rw [hbb.2 hd]
    · rw [hbb.1 hd]
  · rw [e1]
    show (processAcc P sid now clean a0).info.server_name = st.info.server_name
    rw [hpa, h7.2.2.2.2.2.1, h6.2.2.2.2.2.1]
    by_cases hd : some (⟨sid, a3.info.server_name, (a3.pUrl).getD "",
        strOr a3.pCode "See URL"⟩ : AuthPayload) = a3.info.last_auth_payload
    · rw [hbb.2 hd, h3.2.2.2.2.1, h1.2.2.2.2.2.1, ha0]
      exact hpre.2.2.1
    · rw [hbb.1 hd]
      show a3.info.server_name = st.info.server_name
      rw [h3.2.2.2.2.1, h1.2.2.2.2.2.1, ha0]
      exact hpre.2.2.1
  · intro hne
    have hd : some (⟨sid, a3.info.server_name, (a3.pUrl).getD "",
        strOr a3.pCode "See URL"⟩ : AuthPayload) ≠ a3.info.last_auth_payload := by
      rw [hpayload, ha3last]
      exact hne
    have h4eq := hbb.1 hd
    constructor
    · rw [e2, hpa, h7.1, h6.1, h4eq]
      show a3.emits ++ _ = _
      rw [h3.2.2.2.2.2, h1.1, ha0]
      rw [hpayload]
      rfl
    · rw [e1]
      show (processAcc P sid now clean a0).info.last_auth_payload = _
      rw [hpa, h7.2.2.2.1, h6.2.2.2.1, h4eq]
      show some (⟨sid, a3.info.server_name, (a3.pUrl).getD "",
          strOr a3.pCode "See URL"⟩ : AuthPayload) = _
      rw [hpayload]
  · intro heq
    have hd : some (⟨sid, a3.info.server_name, (a3.pUrl).getD "",
        strOr a3.pCode "See URL"⟩ : AuthPayload) = a3.info.last_auth_payload := by
      rw [hpayload, ha3last]
      exact heq
    have h4eq := hbb.2 hd
    constructor
    · rw [e2, hpa, h7.1, h6.1, h4eq]
      show a3.emits = _
      rw [h3.2.2.2.2.2, h1.1, ha0]
    · rw [e1]
      show (processAcc P sid now clean a0).info.last_auth_payload = _
      rw [hpa, h7.2.2.2.1, h6.2.2.2.1, h4eq]
      show a3.info.last_auth_payload = _
      rw [ha3last]

/-- C6: two consecutive detections of the same auth-prompt line produce one
`auth_required` broadcast — the second, identical URL+code payload is
suppressed by the `last_auth_payload` comparison — and, in full generality,
the stored `last_auth_payload` only ever changes to `None` or to a payload
that was actually broadcast in the same iteration. -/
theorem c6_auth_broadcast_dedupe :
    (∀ (P : List String) (sid : Nat) (t1 t2 : ℤ) (st : MonState)
        (stream line raw : String),
      authUrlSearch (ansiStrip line) = some raw →
      truthyOS (some raw) = true →
      authSuccessM (ansiStrip line) = false →
      authOkM (ansiStrip line) = false →
      st.pending_auth_code = none →
      st.info.last_auth_payload = none →
      (monitorStep P sid t1 st (some (stream, line))).2.2 =
        [Emit.consoleOutput (ansiStrip line),
         Emit.authRequired ⟨sid, st.info.server_name, canonUrl raw,
           strOr (authCodeSearch (ansiStrip line)) "See URL"⟩] ∧
      (monitorStep P sid t2 (monitorStep P sid t1 st (some (stream, line))).1
          (some (stream, line))).2.2 =
        [Emit.consoleOutput (ansiStrip line)] ∧
      (monitorStep P sid t2 (monitorStep P sid t1 st (some (stream, line))).1
          (some (stream, line))).1.info.last_auth_payload =
        (monitorStep P sid t1 st (some (stream, line))).1.info.last_auth_payload) ∧
    (∀ (P : List String) (sid : Nat) (now : ℤ) (st : MonState)
        (it : Option (String × String)),
      (monitorStep P sid now st it).1.info.last_auth_payload ≠
        st.info.last_auth_payload →
      (monitorStep P sid now st it).1.info.last_auth_payload = none ∨
      ∃ p, (monitorStep P sid now st it).1.info.last_auth_payload = some p ∧
        Emit.authRequired p ∈ (monitorStep P sid now st it).2.2) := by
  constructor
  · intro P sid t1 t2 st stream line raw hurl hraw hsucc hok hcode hlast
    have h1 := monitorStep_url_pass P sid t1 st stream line raw hurl hraw hsucc
      hok hcode
    have hne : some (⟨sid, st.info.server_name, canonUrl raw,
        strOr (authCodeSearch (ansiStrip line)) "See URL"⟩ : AuthPayload) ≠
        st.info.last_auth_payload := by
      rw [hlast]
      simp
    have h1e := h1.2.2.1 hne
    have h2 := monitorStep_url_pass P sid t2
      (monitorStep P sid t1 st (some (stream, line))).1 stream line raw hurl hraw
      hsucc hok h1.1
    rw [h1.2.1] at h2
    have heq : some (⟨sid, st.info.server_name, canonUrl raw,
        strOr (authCodeSearch (ansiStrip line)) "See URL"⟩ : AuthPayload) =
        (monitorStep P sid t1 st (some (stream, line))).1.info.last_auth_payload := by
      rw [h1e.2]
    have h2e := h2.2.2.2 heq
    exact ⟨h1e.1, h2e.1, h2e.2⟩
  · intro P sid now st it hne
    cases it with
    | none =>
      exfalso
      apply hne
      have e1 : (monitorStep P sid now st none).1.info =
          (scheduledStatus now st.info).1 := rfl
      rw [e1]
      exact (scheduledStatus_bc now st.info).1
    | some p =>
      cases p with
      | mk stream line =>
        have e1 : (monitorStep P sid now st (some (stream, line))).1.info =
            (processAcc P sid now (ansiStrip line)
              ⟨(scheduledStatus now st.info).1, st.auth_command_sent,
               st.pending_auth_url, st.pending_auth_code, [],
               [Emit.consoleOutput (ansiStrip line)]⟩).info := rfl
        have e2 : (monitorStep P sid now st (some (stream, line))).2.2 =
            (processAcc P sid now (ansiStrip line)
              ⟨(scheduledStatus now st.info).1, st.auth_command_sent,
               st.pending_auth_url, st.pending_auth_code, [],
               [Emit.consoleOutput (ansiStrip line)]⟩).emits := rfl
        have hpl := processAcc_last P sid now (ansiStrip line)
          ⟨(scheduledStatus now st.info).1, st.auth_command_sent,
           st.pending_auth_url, st.pending_auth_code, [],
           [Emit.consoleOutput (ansiStrip line)]⟩
        rcases hpl.1 with hsame | hnone | ⟨p, hp, hmem⟩
        · exfalso
          apply hne
          rw [e1, hsame]
          exact (scheduledStatus_bc now st.info).1
        · exact Or.inl (by rw [e1]; exact hnone)
        · exact Or.inr ⟨p, by rw [e1]; exact hp, by rw [e2]; exact hmem⟩

/-- Witness for C6: a concrete device-URL line processed twice from a fresh
state broadcasts once and suppresses the identical repeat. -/
theorem c6_auth_broadcast_dedupe_witness :
    ((monitorStep AUTH_PERSISTENCE_TYPES 7 102 (initMonState "Srv" 100 none)
        (some ("stdout", "Visit https://accounts.hytale.com/device?user_code=AB-1"))).2.2 =
      [Emit.consoleOutput "Visit https://accounts.hytale.com/device?user_code=AB-1",
       Emit.authRequired ⟨7, "Srv",
         canonUrl "https://accounts.hytale.com/device?user_code=AB-1",
         strOr (authCodeSearch (ansiStrip "Visit https://accounts.hytale.com/device?user_code=AB-1")) "See URL"⟩] ∧
     (monitorStep AUTH_PERSISTENCE_TYPES 7 103
        (monitorStep AUTH_PERSISTENCE_TYPES 7 102 (initMonState "Srv" 100 none)
          (some ("stdout", "Visit https://accounts.hytale.com/device?user_code=AB-1"))).1
        (some ("stdout", "Visit https://accounts.hytale.com/device?user_code=AB-1"))).2.2 =
      [Emit.consoleOutput "Visit https://accounts.hytale.com/device?user_code=AB-1"] ∧
     (monitorStep AUTH_PERSISTENCE_TYPES 7 103
        (monitorStep AUTH_PERSISTENCE_TYPES 7 102 (initMonState "Srv" 100 none)
          (some ("stdout", "Visit https://accounts.hytale.com/device?user_code=AB-1"))).1
        (some ("stdout", "Visit https://accounts.hytale.com/device?user_code=AB-1"))).1.info.last_auth_payload =
      (monitorStep AUTH_PERSISTENCE_TYPES 7 102 (initMonState "Srv" 100 none)
        (some ("stdout", "Visit https://accounts.hytale.com/device?user_code=AB-1"))).1.info.last_auth_payload) ∧
    ((monitorStep AUTH_PERSISTENCE_TYPES 7 102 (initMonState "Srv" 100 none)
        (some ("stdout", "Visit https://accounts.hytale.com/device?user_code=AB-1"))).1.info.last_auth_payload = none ∨
     ∃ p, (monitorStep AUTH_PERSISTENCE_TYPES 7 102 (initMonState "Srv" 100 none)
        (some ("stdout", "Visit https://accounts.hytale.com/device?user_code=AB-1"))).1.info.last_auth_payload = some p ∧
       Emit.authRequired p ∈ (monitorStep AUTH_PERSISTENCE_TYPES 7 102 (initMonState "Srv" 100 none)
        (some ("stdout", "Visit https://accounts.hytale.com/device?user_code=AB-1"))).2.2) :=
  ⟨(by
      have h := c6_auth_broadcast_dedupe.1 AUTH_PERSISTENCE_TYPES 7 102 103
        (initMonState "Srv" 100 none) "stdout"
        "Visit https://accounts.hytale.com/device?user_code=AB-1"
        "https://accounts.hytale.com/device?user_code=AB-1"
        (by decide) (by decide) (by decide) (by decide) (by decide) (by decide)
      exact h),
   c6_auth_broadcast_dedupe.2 AUTH_PERSISTENCE_TYPES 7 102
     (initMonState "Srv" 100 none)
     (some ("stdout", "Visit https://accounts.hytale.com/device?user_code=AB-1"))
     (by decide)⟩

/-! ## C5: the 20-second login cooldown -/

/-- A `_should_request_auth_login` success implies the 20s cooldown had
elapsed since the last recorded request. -/
theorem should_request_true_cooldown (info : ServerInfo) (now : ℤ)
    (h : should_request_auth_login info now = true) :
    AUTH_LOGIN_COOLDOWN ≤ now - info.auth_login_requested_at := by
  unfold should_request_auth_login at h
  split at h
  · simp at h
  · split at h
    · simp at h
    · next hc => exact Int.not_lt.mp hc

/-- `request_auth_login` either issues nothing and keeps the request
timestamp, or issues exactly the login command, stamps `now`, and the 20s
cooldown had elapsed. -/
theorem request_auth_login_login (now : ℤ) (info : ServerInfo) :
    ((request_auth_login now info).2.2 = [] ∧
      (request_auth_login now info).2.1.auth_login_requested_at
        = info.auth_login_requested_at) ∨
    ((request_auth_login now info).2.2 = [Cmd.authLoginDevice] ∧
      (request_auth_login now info).2.1.auth_login_requested_at = now ∧
      AUTH_LOGIN_COOLDOWN ≤ now - info.auth_login_requested_at) := by
  unfold request_auth_login
  split
  · next h =>
    exact Or.inr ⟨rfl, rfl, should_request_true_cooldown info now h⟩
  · exact Or.inl ⟨rfl, rfl⟩

/-- Composing two cooldown-respecting transitions at one instant: at most
one of the two can issue, since an issue stamps `now` and a second issue
would need the 20s cooldown to have elapsed from `now` itself. -/
theorem login_chain (now : ℤ) (c1 c2 c3 : Nat) (r1 r2 r3 : ℤ)
    (h12 : (c2 = c1 ∧ r2 = r1) ∨
      (c2 = c1 + 1 ∧ r2 = now ∧ AUTH_LOGIN_COOLDOWN ≤ now - r1))
    (h23 : (c3 = c2 ∧ r3 = r2) ∨
      (c3 = c2 + 1 ∧ r3 = now ∧ AUTH_LOGIN_COOLDOWN ≤ now - r2)) :
    (c3 = c1 ∧ r3 = r1) ∨
    (c3 = c1 + 1 ∧ r3 = now ∧ AUTH_LOGIN_COOLDOWN ≤ now - r1) := by
  simp only [AUTH_LOGIN_COOLDOWN] at h12 h23 ⊢
  rcases h12 with ⟨hc, hr⟩ | ⟨hc, hr, hd⟩ <;>
    rcases h23 with ⟨hc', hr'⟩ | ⟨hc', hr', hd'⟩
  · exact Or.inl ⟨by omega, by omega⟩
  · exact Or.inr ⟨by omega, by omega, by omega⟩
  · exact Or.inr ⟨by omega, by omega, by omega⟩
  · exfalso; omega

/-- `send_auth_persistence` never issues a login command and never touches
the login timestamp. -/
theorem send_auth_persistence_login (P : List String) (info : ServerInfo) :
    ((send_auth_persistence P info).2).count Cmd.authLoginDevice = 0 ∧
    (send_auth_persistence P info).1.auth_login_requested_at
      = info.auth_login_requested_at := by
  unfold send_auth_persistence
  dsimp only
  split
  · exact ⟨List.count_eq_zero.mpr (by simp), rfl⟩
  · exact ⟨rfl, rfl⟩

/-- URL detection issues no commands and keeps the login timestamp. -/
theorem branchUrl_login (clean : String) (a : Acc) :
    (branchUrl clean a).cmds = a.cmds ∧
    (branchUrl clean a).info.auth_login_requested_at
      = a.info.auth_login_requested_at := by
  unfold branchUrl
  cases authUrlSearch clean <;> exact ⟨rfl, rfl⟩

/-- Code detection issues no commands and keeps the login timestamp. -/
theorem branchCode_login (clean : String) (a : Acc) :
    (branchCode clean a).cmds = a.cmds ∧
    (branchCode clean a).info.auth_login_requested_at
      = a.info.auth_login_requested_at := by
  unfold branchCode
  cases authCodeSearch clean
  · exact ⟨rfl, rfl⟩
  · dsimp only
    split <;> exact ⟨rfl, rfl⟩

/-- The broadcast branch issues no commands and keeps the login timestamp,
the pending flag and the shared URL. -/
theorem branchBroadcast_login (sid : Nat) (a : Acc) :
    (branchBroadcast sid a).cmds = a.cmds ∧
    (branchBroadcast sid a).info.auth_login_requested_at
      = a.info.auth_login_requested_at ∧
    (branchBroadcast sid a).info.auth_pending = a.info.auth_pending ∧
    (branchBroadcast sid a).info.auth_url = a.info.auth_url := by
  unfold branchBroadcast
  split
  · dsimp only
    split <;> exact ⟨rfl, rfl, rfl, rfl⟩
  · split
    · dsimp only
      split <;> exact ⟨rfl, rfl, rfl, rfl⟩
    · exact ⟨rfl, rfl, rfl, rfl⟩

/-- The success branch never issues a login command and keeps the login
timestamp. -/
theorem branchSuccess_login (P : List String) (clean : String) (a : Acc) :
    ((branchSuccess P clean a).cmds).count Cmd.authLoginDevice
      = (a.cmds).count Cmd.authLoginDevice ∧
    (branchSuccess P clean a).info.auth_login_requested_at
      = a.info.auth_login_requested_at := by
  unfold branchSuccess
  split
  · dsimp only
    split
    · constructor
      · rw [List.count_append, (send_auth_persistence_login P _).1]
        exact Nat.add_zero _
      · exact (send_auth_persistence_login P _).2
    · exact ⟨rfl, rfl⟩
  · exact ⟨rfl, rfl⟩

/-- The persistence branch never issues a login command and keeps the login
timestamp. -/
theorem branchPersist_login (P : List String) (clean : String) (a : Acc) :
    ((branchPersist P clean a).cmds).count Cmd.authLoginDevice
      = (a.cmds).count Cmd.authLoginDevice ∧
    (branchPersist P clean a).info.auth_login_requested_at
      = a.info.auth_login_requested_at := by
  unfold branchPersist
  split
  · dsimp only
    constructor
    · rw [List.count_append, (send_auth_persistence_login P _).1]
      exact Nat.add_zero _
    · exact (send_auth_persistence_login P _).2
  · split <;> exact ⟨rfl, rfl⟩

/-- The no-tokens branch either issues no login command and keeps the
timestamp, or issues exactly one with the cooldown elapsed. -/
theorem branchNoTokens_login (now : ℤ) (clean : String) (a : Acc) :
    (((branchNoTokens now clean a).cmds).count Cmd.authLoginDevice
        = (a.cmds).count Cmd.authLoginDevice ∧
      (branchNoTokens now clean a).info.auth_login_requested_at
        = a.info.auth_login_requested_at) ∨
    (((branchNoTokens now clean a).cmds).count Cmd.authLoginDevice
        = (a.cmds).count Cmd.authLoginDevice + 1 ∧
      (branchNoTokens now clean a).info.auth_login_requested_at = now ∧
      AUTH_LOGIN_COOLDOWN ≤ now - a.info.auth_login_requested_at) := by
  unfold branchNoTokens
  split
  · rcases request_auth_login_login now a.info with ⟨hc, hr⟩ | ⟨hc, hr, hd⟩
    · exact Or.inl ⟨by rw [hc]; simp, hr⟩
    · exact Or.inr ⟨by rw [hc]; simp, hr, hd⟩
  · exact Or.inl ⟨rfl, rfl⟩

/-- The `/auth status` response branch either issues no login command and
keeps the timestamp, or issues exactly one with the cooldown elapsed. -/
theorem branchOkBad_login (now : ℤ) (clean : String) (a : Acc) :
    (((branchOkBad now clean a).cmds).count Cmd.authLoginDevice
        = (a.cmds).count Cmd.authLoginDevice ∧
      (branchOkBad now clean a).info.auth_login_requested_at
        = a.info.auth_login_requested_at) ∨
    (((branchOkBad now clean a).cmds).count Cmd.authLoginDevice
        = (a.cmds).count Cmd.authLoginDevice + 1 ∧
      (branchOkBad now clean a).info.auth_login_requested_at = now ∧
      AUTH_LOGIN_COOLDOWN ≤ now - a.info.auth_login_requested_at) := by
  unfold branchOkBad
  split
  · dsimp only
    split <;> exact Or.inl ⟨rfl, rfl⟩
  · split
    · rcases request_auth_login_login now a.info with ⟨hc, hr⟩ | ⟨hc, hr, hd⟩
      · exact Or.inl ⟨by rw [hc]; simp, hr⟩
      · exact Or.inr ⟨by rw [hc]; simp, hr, hd⟩
    · exact Or.inl ⟨rfl, rfl⟩

/-- The scheduled status check issues no login command and keeps the login
timestamp. -/
theorem scheduledStatus_login (now : ℤ) (info : ServerInfo) :
    ((scheduledStatus now info).2).count Cmd.authLoginDevice = 0 ∧
    (scheduledStatus now info).1.auth_login_requested_at
      = info.auth_login_requested_at := by
  unfold scheduledStatus
  split
  · exact ⟨rfl, rfl⟩
  · exact ⟨rfl, rfl⟩

/-- The per-line pipeline issues at most one login command: either none
with the timestamp unchanged, or exactly one more, stamped `now`, with the
20s cooldown elapsed since the previous stamp. -/
theorem processAcc_login (P : List String) (sid : Nat) (now : ℤ)
    (clean : String) (a : Acc) :
    (((processAcc P sid now clean a).cmds).count Cmd.authLoginDevice
        = (a.cmds).count Cmd.authLoginDevice ∧
      (processAcc P sid now clean a).info.auth_login_requested_at
        = a.info.auth_login_requested_at) ∨
    (((processAcc P sid now clean a).cmds).count Cmd.authLoginDevice
        = (a.cmds).count Cmd.authLoginDevice + 1 ∧
      (processAcc P sid now clean a).info.auth_login_requested_at = now ∧
      AUTH_LOGIN_COOLDOWN ≤ now - a.info.auth_login_requested_at) := by
  unfold processAcc
  set a1 := branchNoTokens now clean a with ha1
  set a2 := branchUrl clean a1 with ha2
  set a3 := branchCode clean a2 with ha3
  set a4 := branchBroadcast sid a3 with ha4
  set a5 := branchSuccess P clean a4 with ha5
  set a6 := branchOkBad now clean a5 with ha6
  have g1 := branchNoTokens_login now clean a
  rw [← ha1] at g1
  have g2 := branchUrl_login clean a1
  rw [← ha2] at g2
  have g3 := branchCode_login clean a2
  rw [← ha3] at g3
  have g4 := branchBroadcast_login sid a3
  rw [← ha4] at g4
  have g5 := branchSuccess_login P clean a4
  rw [← ha5] at g5
  have g6 := branchOkBad_login now clean a5
  rw [← ha6] at g6
  have g7 := branchPersist_login P clean a6
  have r2 := login_chain now _ _ _ _ _ _ g1
    (Or.inl ⟨congrArg (List.count Cmd.authLoginDevice) g2.1, g2.2⟩)
  have r3 := login_chain now _ _ _ _ _ _ r2
    (Or.inl ⟨congrArg (List.count Cmd.authLoginDevice) g3.1, g3.2⟩)
  have r4 := login_chain now _ _ _ _ _ _ r3
    (Or.inl ⟨congrArg (List.count Cmd.authLoginDevice) g4.1, g4.2.1⟩)
  have r5 := login_chain now _ _ _ _ _ _ r4 (Or.inl g5)
  have r6 := login_chain now _ _ _ _ _ _ r5 g6
  exact login_chain now _ _ _ _ _ _ r6 (Or.inl g7)

/-- One monitor iteration issues at most one login command: either none
with the timestamp unchanged, or exactly one, stamped `now`, with the 20s
cooldown elapsed since the previous stamp. -/
theorem monitorStep_login (P : List String) (sid : Nat) (now : ℤ)
    (st : MonState) (item : Option (String × String)) :
    (((monitorStep P sid now st item).2.1).count Cmd.authLoginDevice = 0 ∧
      (monitorStep P sid now st item).1.info.auth_login_requested_at
        = st.info.auth_login_requested_at) ∨
    (((monitorStep P sid now st item).2.1).count Cmd.authLoginDevice = 1 ∧
      (monitorStep P sid now st item).1.info.auth_login_requested_at = now ∧
      AUTH_LOGIN_COOLDOWN ≤ now - st.info.auth_login_requested_at) := by
  have hs := scheduledStatus_login now st.info
  cases item with
  | none => exact Or.inl ⟨hs.1, hs.2⟩
  | some sl =>
    obtain ⟨stream, line⟩ := sl
    have e1 : (monitorStep P sid now st (some (stream, line))).2.1
        = (scheduledStatus now st.info).2 ++
          (processAcc P sid now (ansiStrip line)
            ⟨(scheduledStatus now st.info).1, st.auth_command_sent,
             st.pending_auth_url, st.pending_auth_code, [],
             [Emit.consoleOutput (ansiStrip line)]⟩).cmds := rfl
    have e2 : (monitorStep P sid now st (some (stream, line))).1.info
        = (processAcc P sid now (ansiStrip line)
            ⟨(scheduledStatus now st.info).1, st.auth_command_sent,
             st.pending_auth_url, st.pending_auth_code, [],
             [Emit.consoleOutput (ansiStrip line)]⟩).info := rfl
    set clean := ansiStrip line with hcl
    set a0 : Acc := ⟨(scheduledStatus now st.info).1, st.auth_command_sent,
      st.pending_auth_url, st.pending_auth_code, [],
      [Emit.consoleOutput clean]⟩ with ha0
    have h0 : a0.info.auth_login_requested_at
        = st.info.auth_login_requested_at := hs.2
    have hcz : (a0.cmds).count Cmd.authLoginDevice = 0 := rfl
    rcases processAcc_login P sid now clean a0 with ⟨hc, hr⟩ | ⟨hc, hr, hd⟩
    · refine Or.inl ⟨?_, ?_⟩
      · rw [e1, List.count_append, hs.1, hc, hcz]
      · rw [e2, hr, h0]
    · refine Or.inr ⟨?_, ?_, ?_⟩
      · rw [e1, List.count_append, hs.1, hc, hcz]
      · rw [e2, hr]
      · exact h0 ▸ hd

/-- Once the stored request timestamp lies in the window `[a, ∞)`, no
iteration whose wall clock stays below `a + 20` can issue another login
command, and the timestamp never drops back below `a`. -/
theorem monitorRun_login_blocked (P : List String) (sid : Nat) (a : ℤ) :
    ∀ (evs : List (ℤ × Option (String × String))) (st : MonState),
      (∀ e ∈ evs, e.1 < a + AUTH_LOGIN_COOLDOWN) →
      a ≤ st.info.auth_login_requested_at →
      ((monitorRun P sid st evs).2.1).count Cmd.authLoginDevice = 0 := by
  intro evs
  induction evs with
  | nil => intro st _ _; rfl
  | cons e evs ih =>
    intro st hw hr
    obtain ⟨t, it⟩ := e
    have e1 : (monitorRun P sid st ((t, it) :: evs)).2.1
        = (monitorStep P sid t st it).2.1 ++
          (monitorRun P sid (monitorStep P sid t st it).1 evs).2.1 := rfl
    rw [e1, List.count_append]
    rcases monitorStep_login P sid t st it with ⟨hc, hrq⟩ | ⟨hc, hrq, hd⟩
    · rw [hc, ih _ (fun x hx => hw x (List.mem_cons_of_mem _ hx))
        (by rw [hrq]; exact hr)]
    · exfalso
      have ht := hw (t, it) (List.mem_cons_self _ _)
      simp only [AUTH_LOGIN_COOLDOWN] at hd ht
      omega

/-- Any monitor run whose poll timestamps all lie inside one 20-second
window issues at most one login command. -/
theorem monitorRun_login_window (P : List String) (sid : Nat) (a : ℤ) :
    ∀ (evs : List (ℤ × Option (String × String))) (st : MonState),
      (∀ e ∈ evs, a ≤ e.1 ∧ e.1 < a + AUTH_LOGIN_COOLDOWN) →
      ((monitorRun P sid st evs).2.1).count Cmd.authLoginDevice ≤ 1 := by
  intro evs
  induction evs with
  | nil => intro st _; simp [monitorRun]
  | cons e evs ih =>
    intro st hw
    obtain ⟨t, it⟩ := e
    have e1 : (monitorRun P sid st ((t, it) :: evs)).2.1
        = (monitorStep P sid t st it).2.1 ++
          (monitorRun P sid (monitorStep P sid t st it).1 evs).2.1 := rfl
    rw [e1, List.count_append]
    rcases monitorStep_login P sid t st it with ⟨hc, hrq⟩ | ⟨hc, hrq, hd⟩
    · rw [hc]
      simpa using ih _ (fun x hx => hw x (List.mem_cons_of_mem _ hx))
    · rw [hc, monitorRun_login_blocked P sid a evs _
        (fun x hx => (hw x (List.mem_cons_of_mem _ hx)).2)
        (by rw [hrq]; exact (hw (t, it) (List.mem_cons_self _ _)).1)]

/-- When an auth request is pending with a truthy URL,
`_should_request_auth_login` refuses. -/
theorem should_request_false_pending (info : ServerInfo) (now : ℤ)
    (hp : info.auth_pending = true) (hu : truthyOS info.auth_url = true) :
    should_request_auth_login info now = false := by
  unfold should_request_auth_login
  rw [if_pos (by rw [hp, hu]; rfl)]

/-- With the pending flag down and the cooldown elapsed,
`_should_request_auth_login` accepts. -/
theorem should_request_true_of (info : ServerInfo) (now : ℤ)
    (hp : info.auth_pending = false)
    (hd : AUTH_LOGIN_COOLDOWN ≤ now - info.auth_login_requested_at) :
    should_request_auth_login info now = true := by
  unfold should_request_auth_login
  rw [if_neg (by rw [hp]; simp), if_neg (Int.not_lt.mpr hd)]

/-- A refused login request leaves the no-tokens branch without effect on
the shared record, the issued commands and the carried URL and code. -/
theorem branchNoTokens_noIssue (now : ℤ) (clean : String) (a : Acc)
    (h : should_request_auth_login a.info now = false) :
    (branchNoTokens now clean a).info = a.info ∧
    (branchNoTokens now clean a).cmds = a.cmds ∧
    (branchNoTokens now clean a).pUrl = a.pUrl ∧
    (branchNoTokens now clean a).pCode = a.pCode := by
  unfold branchNoTokens
  split
  · unfold request_auth_login
    rw [h]
    simp
  · exact ⟨rfl, rfl, rfl, rfl⟩

/-- With no `auth_ok` match and a refused login request, the status branch
leaves the shared record and the issued commands alone. -/
theorem branchOkBad_noIssue (now : ℤ) (clean : String) (a : Acc)
    (hok : authOkM clean = false)
    (h : should_request_auth_login a.info now = false) :
    (branchOkBad now clean a).info = a.info ∧
    (branchOkBad now clean a).cmds = a.cmds := by
  unfold branchOkBad
  rw [hok]
  simp only [Bool.false_eq_true, if_false]
  split
  · unfold request_auth_login
    rw [h]
    simp
  · exact ⟨rfl, rfl⟩

/-- With a truthy shared URL already present, code detection keeps the
issued commands, the pending flag and the URL. -/
theorem branchCode_fields (clean : String) (a : Acc)
    (htr : truthyOS a.info.auth_url = true) :
    (branchCode clean a).cmds = a.cmds ∧
    (branchCode clean a).info.auth_pending = a.info.auth_pending ∧
    (branchCode clean a).info.auth_url = a.info.auth_url := by
  unfold branchCode
  cases authCodeSearch clean
  · exact ⟨rfl, rfl, rfl⟩
  · dsimp only
    rw [if_neg (by simp [htr])]
    exact ⟨rfl, rfl, rfl⟩

/-- A line that matches no auth-URL pattern leaves the URL branch without
effect. -/
theorem branchUrl_id (clean : String) (a : Acc)
    (h : authUrlSearch clean = none) : branchUrl clean a = a := by
  unfold branchUrl
  rw [h]

/-- A line that matches no authorization-code pattern leaves the code
branch without effect. -/
theorem branchCode_id (clean : String) (a : Acc)
    (h : authCodeSearch clean = none) : branchCode clean a = a := by
  unfold branchCode
  rw [h]

/-- With no carried URL and no carried code, the broadcast branch is
without effect. -/
theorem branchBroadcast_id (sid : Nat) (a : Acc)
    (h1 : truthyOS a.pUrl = false) (h2 : truthyOS a.pCode = false) :
    branchBroadcast sid a = a := by
  unfold branchBroadcast
  rw [h1, h2]
  simp

/-- A line that matches no success pattern leaves the success branch
without effect. -/
theorem branchSuccess_id (P : List String) (clean : String) (a : Acc)
    (h : authSuccessM clean = false) : branchSuccess P clean a = a := by
  unfold branchSuccess
  rw [h]
  simp

/-- A line that matches neither status pattern leaves the status branch
without effect. -/
theorem branchOkBad_id (now : ℤ) (clean : String) (a : Acc)
    (hok : authOkM clean = false) (hbad : authBadM clean = false) :
    branchOkBad now clean a = a := by
  unfold branchOkBad
  rw [hok, hbad]
  simp

/-- A line that matches no persistence pattern leaves the persistence
branch without effect. -/
theorem branchPersist_id (P : List String) (clean : String) (a : Acc)
    (hun : persistUnknownM clean = false) (han : persistAnyM clean = false) :
    branchPersist P clean a = a := by
  unfold branchPersist
  rw [hun, han]
  simp

/-- The no-tokens branch is without effect once the login command was
already sent. -/
theorem branchNoTokens_skip (now : ℤ) (clean : String) (a : Acc)
    (hs : a.sent = true) : branchNoTokens now clean a = a := by
  unfold branchNoTokens
  rw [hs]
  simp

/-- A matching no-tokens trigger with the command not yet sent and an
accepted request: the login command is issued, `now` is stamped and the
pending flag raised. -/
theorem branchNoTokens_issue (now : ℤ) (clean : String) (a : Acc)
    (hm : noTokensM clean = true) (hs : a.sent = false)
    (hreq : should_request_auth_login a.info now = true) :
    branchNoTokens now clean a =
      { a with
          info := { a.info with auth_login_requested_at := now,
                                auth_pending := true },
          sent := true,
          cmds := a.cmds ++ [Cmd.authLoginDevice] } := by
  unfold branchNoTokens
  rw [if_pos (by rw [hm, hs]; rfl)]
  unfold request_auth_login
  rw [if_pos hreq]

/-- While an auth request is pending with a known (truthy) URL, an
iteration that processes a line matching neither the success pattern, the
status-ok pattern nor the auth-URL pattern issues no login command. -/
theorem monitorStep_pending_suppress (P : List String) (sid : Nat)
    (now : ℤ) (st : MonState) (stream line : String)
    (hp : st.info.auth_pending = true)
    (hu : truthyOS st.info.auth_url = true)
    (hsucc : authSuccessM (ansiStrip line) = false)
    (hok : authOkM (ansiStrip line) = false)
    (hnurl : authUrlSearch (ansiStrip line) = none) :
    ((monitorStep P sid now st (some (stream, line))).2.1).count
      Cmd.authLoginDevice = 0 := by
  have hs := scheduledStatus_login now st.info
  have hbc := scheduledStatus_bc now st.info
  have e1 : (monitorStep P sid now st (some (stream, line))).2.1
      = (scheduledStatus now st.info).2 ++
        (processAcc P sid now (ansiStrip line)
          ⟨(scheduledStatus now st.info).1, st.auth_command_sent,
           st.pending_auth_url, st.pending_auth_code, [],
           [Emit.consoleOutput (ansiStrip line)]⟩).cmds := rfl
  set clean := ansiStrip line with hcl
  set a0 : Acc := ⟨(scheduledStatus now st.info).1, st.auth_command_sent,
    st.pending_auth_url, st.pending_auth_code, [],
    [Emit.consoleOutput clean]⟩ with ha0
  have h0p : a0.info.auth_pending = true := hbc.2.2.2.trans hp
  have h0u : a0.info.auth_url = st.info.auth_url := hbc.2.1
  have hcz : (a0.cmds).count Cmd.authLoginDevice = 0 := rfl
  rw [e1, List.count_append, hs.1]
  unfold processAcc
  set a1 := branchNoTokens now clean a0 with ha1
  set a2 := branchUrl clean a1 with ha2
  set a3 := branchCode clean a2 with ha3
  set a4 := branchBroadcast sid a3 with ha4
  set a5 := branchSuccess P clean a4 with ha5
  set a6 := branchOkBad now clean a5 with ha6
  have hreq0 : should_request_auth_login a0.info now = false :=
    should_request_false_pending _ _ h0p (by rw [h0u]; exact hu)
  have n1 := branchNoTokens_noIssue now clean a0 hreq0
  rw [← ha1] at n1
  have n2 : a2 = a1 := by rw [ha2]; exact branchUrl_id clean a1 hnurl
  have h2p : a2.info.auth_pending = true := by rw [n2, n1.1]; exact h0p
  have h2u : a2.info.auth_url = st.info.auth_url := by
    rw [n2, n1.1]; exact h0u
  have f3 := branchCode_fields clean a2 (by rw [h2u]; exact hu)
  rw [← ha3] at f3
  have f4 := branchBroadcast_login sid a3
  rw [← ha4] at f4
  have n5 : a5 = a4 := by rw [ha5]; exact branchSuccess_id P clean a4 hsucc
  have h5p : a5.info.auth_pending = true := by
    rw [n5, f4.2.2.1, f3.2.1, h2p]
  have h5u : a5.info.auth_url = st.info.auth_url := by
    rw [n5, f4.2.2.2, f3.2.2, h2u]
  have hreq5 : should_request_auth_login a5.info now = false :=
    should_request_false_pending _ _ h5p (by rw [h5u]; exact hu)
  have n6 := branchOkBad_noIssue now clean a5 hok hreq5
  rw [← ha6] at n6
  have f7 := branchPersist_login P clean a6
  rw [f7.1, n6.2, n5, f4.1, f3.1, n2, n1.2.1, hcz]

/-- A fresh instance fed the "no tokens" trigger twice issues the login
command exactly once: the first trigger issues it (once 20s have passed
since the zero starting timestamp), the second is suppressed by the
`auth_command_sent` flag. -/
theorem monitorRun_two_triggers (P : List String) (sid : Nat)
    (name : String) (t0 t1 t2 : ℤ) (h1 : AUTH_LOGIN_COOLDOWN ≤ t1) :
    ((monitorRun P sid (initMonState name t0 none)
        [(t1, some ("stdout", "No server tokens configured")),
         (t2, some ("stdout", "No server tokens configured"))]).2.1).count
      Cmd.authLoginDevice = 1 := by
  have hm : noTokensM (ansiStrip "No server tokens configured") = true := by
    decide
  have hnu : authUrlSearch (ansiStrip "No server tokens configured")
      = none := by decide
  have hnc : authCodeSearch (ansiStrip "No server tokens configured")
      = none := by decide
  have hsc : authSuccessM (ansiStrip "No server tokens configured")
      = false := by decide
  have hok : authOkM (ansiStrip "No server tokens configured") = false := by
    decide
  have hbad : authBadM (ansiStrip "No server tokens configured")
      = false := by decide
  have hpun : persistUnknownM (ansiStrip "No server tokens configured")
      = false := by decide
  have hpan : persistAnyM (ansiStrip "No server tokens configured")
      = false := by decide
  have er : (monitorRun P sid (initMonState name t0 none)
      [(t1, some ("stdout", "No server tokens configured")),
       (t2, some ("stdout", "No server tokens configured"))]).2.1
    = (monitorStep P sid t1 (initMonState name t0 none)
        (some ("stdout", "No server tokens configured"))).2.1 ++
      ((monitorStep P sid t2
          (monitorStep P sid t1 (initMonState name t0 none)
            (some ("stdout", "No server tokens configured"))).1
          (some ("stdout", "No server tokens configured"))).2.1 ++ []) := rfl
  set clean := ansiStrip "No server tokens configured" with hcl
  set a0 : Acc := ⟨(scheduledStatus t1 (initMonState name t0 none).info).1,
    false, none, none, [], [Emit.consoleOutput clean]⟩ with ha0
  have hs1 := scheduledStatus_login t1 (initMonState name t0 none).info
  have hr0 : a0.info.auth_login_requested_at = 0 := hs1.2
  have h0p : a0.info.auth_pending = false :=
    (scheduledStatus_bc t1 (initMonState name t0 none).info).2.2.2
  have hreq : should_request_auth_login a0.info t1 = true :=
    should_request_true_of _ _ h0p (by rw [hr0, Int.sub_zero]; exact h1)
  set R1 : Acc :=
    { a0 with
        info := { a0.info with auth_login_requested_at := t1,
                               auth_pending := true },
        sent := true,
        cmds := a0.cmds ++ [Cmd.authLoginDevice] } with hR1
  have hstep1 : processAcc P sid t1 clean a0 = R1 := by
    unfold processAcc
    rw [branchNoTokens_issue t1 clean a0 hm rfl hreq, ← hR1]
    rw [branchUrl_id clean R1 hnu, branchCode_id clean R1 hnc,
        branchBroadcast_id sid R1 rfl rfl, branchSuccess_id P clean R1 hsc,
        branchOkBad_id t1 clean R1 hok hbad,
        branchPersist_id P clean R1 hpun hpan]
  have e11 : (monitorStep P sid t1 (initMonState name t0 none)
      (some ("stdout", "No server tokens configured"))).2.1
    = (scheduledStatus t1 (initMonState name t0 none).info).2 ++
      (processAcc P sid t1 clean a0).cmds := rfl
  set ST1 : MonState :=
    ⟨R1.info, bufferAppend (initMonState name t0 none).buffer clean,
     R1.sent, R1.pUrl, R1.pCode⟩ with hst1
  have est1 : (monitorStep P sid t1 (initMonState name t0 none)
      (some ("stdout", "No server tokens configured"))).1 = ST1 := by
    have e : (monitorStep P sid t1 (initMonState name t0 none)
        (some ("stdout", "No server tokens configured"))).1
      = ⟨(processAcc P sid t1 clean a0).info,
         bufferAppend (initMonState name t0 none).buffer clean,
         (processAcc P sid t1 clean a0).sent,
         (processAcc P sid t1 clean a0).pUrl,
         (processAcc P sid t1 clean a0).pCode⟩ := rfl
    rw [e, hstep1]
  rw [est1] at er
  set A0 : Acc := ⟨(scheduledStatus t2 ST1.info).1, true, none, none, [],
    [Emit.consoleOutput clean]⟩ with hA0
  have hs2 := scheduledStatus_login t2 ST1.info
  have hstep2 : processAcc P sid t2 clean A0 = A0 := by
    unfold processAcc
    rw [branchNoTokens_skip t2 clean A0 rfl]
    rw [branchUrl_id clean A0 hnu, branchCode_id clean A0 hnc,
        branchBroadcast_id sid A0 rfl rfl, branchSuccess_id P clean A0 hsc,
        branchOkBad_id t2 clean A0 hok hbad,
        branchPersist_id P clean A0 hpun hpan]
  have e21 : (monitorStep P sid t2 ST1
      (some ("stdout", "No server tokens configured"))).2.1
    = (scheduledStatus t2 ST1.info).2 ++
      (processAcc P sid t2 clean A0).cmds := rfl
  have c1 : ((processAcc P sid t1 clean a0).cmds).count
      Cmd.authLoginDevice = 1 := by
    rw [hstep1]
    rfl
  have c2 : ((processAcc P sid t2 clean A0).cmds).count
      Cmd.authLoginDevice = 0 := by
    rw [hstep2]
    rfl
  rw [er, e11, e21]
  simp only [List.count_append, List.count_nil]
  rw [hs1.1, hs2.1, c1, c2]

/-- C5: (i) over any run whose poll timestamps all lie inside one
20-second window, at most one `/auth login device` command is issued;
(ii) while an auth request is pending with a known URL, an iteration
processing a line that matches neither the success, status-ok nor auth-URL
patterns issues no login command; (iii) a fresh instance fed the "no
credentials" trigger phrase twice (the first at least 20s past the zero
starting timestamp) issues the login command exactly once. -/
theorem c5_login_cooldown :
    (∀ (P : List String) (sid : Nat) (a : ℤ)
        (evs : List (ℤ × Option (String × String))) (st : MonState),
      (∀ e ∈ evs, a ≤ e.1 ∧ e.1 < a + AUTH_LOGIN_COOLDOWN) →
      ((monitorRun P sid st evs).2.1).count Cmd.authLoginDevice ≤ 1) ∧
    (∀ (P : List String) (sid : Nat) (now : ℤ) (st : MonState)
        (stream line : String),
      st.info.auth_pending = true →
      truthyOS st.info.auth_url = true →
      authSuccessM (ansiStrip line) = false →
      authOkM (ansiStrip line) = false →
      authUrlSearch (ansiStrip line) = none →
      ((monitorStep P sid now st (some (stream, line))).2.1).count
        Cmd.authLoginDevice = 0) ∧
    (∀ (P : List String) (sid : Nat) (name : String) (t0 t1 t2 : ℤ),
      AUTH_LOGIN_COOLDOWN ≤ t1 →
      ((monitorRun P sid (initMonState name t0 none)
          [(t1, some ("stdout", "No server tokens configured")),
           (t2, some ("stdout", "No server tokens configured"))]).2.1).count
        Cmd.authLoginDevice = 1) :=
  ⟨fun P sid a evs st hw => monitorRun_login_window P sid a evs st hw,
   fun P sid now st stream line hp hu hsc hok hnu =>
     monitorStep_pending_suppress P sid now st stream line hp hu hsc hok hnu,
   fun P sid name t0 t1 t2 h1 =>
     monitorRun_two_triggers P sid name t0 t1 t2 h1⟩

/-- Witness for C5 at concrete inputs: a two-trigger run inside one
window, a pending-with-URL state fed a `Not authenticated` line, and the
double-trigger scenario issuing exactly one login command. -/
theorem c5_login_cooldown_witness :
    (((monitorRun AUTH_PERSISTENCE_TYPES 3 (initMonState "Srv" 50 none)
        [(100, some ("stdout", "No server tokens configured")),
         (110, some ("stdout", "No server tokens configured"))]).2.1).count
      Cmd.authLoginDevice ≤ 1) ∧
    (((monitorStep AUTH_PERSISTENCE_TYPES 3 200
        { info := { initServerInfo "Srv" 50 none with
                      auth_pending := true,
                      auth_url := some "https://accounts.hytale.com/device" },
          buffer := [], auth_command_sent := false,
          pending_auth_url := none, pending_auth_code := none }
        (some ("stdout", "Not authenticated"))).2.1).count
      Cmd.authLoginDevice = 0) ∧
    (((monitorRun AUTH_PERSISTENCE_TYPES 3 (initMonState "Srv" 7 none)
        [(25, some ("stdout", "No server tokens configured")),
         (30, some ("stdout", "No server tokens configured"))]).2.1).count
      Cmd.authLoginDevice = 1) :=
  ⟨c5_login_cooldown.1 AUTH_PERSISTENCE_TYPES 3 100 _ _ (by decide),
   c5_login_cooldown.2.1 AUTH_PERSISTENCE_TYPES 3 200 _ "stdout"
     "Not authenticated" rfl (by decide) (by decide) (by decide) (by decide),
   c5_login_cooldown.2.2 AUTH_PERSISTENCE_TYPES 3 "Srv" 7 25 30 (by decide)⟩

/-! ## C8: log-tailer rotation -/

/-- One `readline` poll through an open handle at `(i, pos)`: the emitted
lines are the at-most-one-line window of the inode's content at `pos`, and
the position advances over it. -/
theorem tailRead_at (fs : LogsDir) (lp : Option String) (i pos : Nat) :
    tailRead fs ⟨lp, some (i, pos)⟩
      = (⟨lp, some (i,
            pos + if pos < (inoContent fs i).length then 1 else 0)⟩,
         (((inoContent fs i).drop pos).take 1).map
           (fun l => ("log", l))) := by
  unfold tailRead
  dsimp only
  split
  · next h =>
    rw [List.drop_eq_getElem_cons h]
    simp only [List.take_succ_cons, List.take_zero, List.map_cons,
      List.map_nil, List.get_eq_getElem]
  · next h =>
    rw [List.drop_eq_nil_of_le (Nat.le_of_not_lt h)]
    simp

/-- Switching to a differently named newest file of ordinary size rebinds
the handle to that file's inode at position 0 and immediately reads its
first pre-existing line, if any. -/
theorem tailStep_switch (fs : LogsDir) (st : TailState) (ne : FileEnt)
    (hne : newestLog fs = some ne)
    (hd : st.last_log_path ≠ some ne.path)
    (hsz : fileSize ne ≤ TAIL_SIZE_THRESHOLD) :
    (tailStep fs st).1.last_log_path = some ne.path ∧
    (tailStep fs st).1.handle
      = some (ne.ino,
          if 0 < (inoContent fs ne.ino).length then 1 else 0) ∧
    (tailStep fs st).2
      = ((inoContent fs ne.ino).take 1).map (fun l => ("log", l)) := by
  have hbig : ¬ TAIL_SIZE_THRESHOLD < fileSize ne := Nat.not_lt.mpr hsz
  unfold tailStep
  rw [hne]
  dsimp only
  rw [if_pos hd]
  simp only [if_neg hbig]
  rw [tailRead_at]
  simp

/-- An iteration that keeps the same newest path is a plain read. -/
theorem tailStep_steady (fs : LogsDir) (ne : FileEnt)
    (hne : newestLog fs = some ne) (h : Option (Nat × Nat)) :
    tailStep fs ⟨some ne.path, h⟩ = tailRead fs ⟨some ne.path, h⟩ := by
  unfold tailStep
  rw [hne]
  dsimp only
  rw [if_neg (by simp)]

/-- The at-most-one-line window at `pos` followed by the next `n` lines is
the `n + 1`-line window at `pos`. -/
theorem take_one_drop_append {α : Type} (L : List α) (pos n : Nat) :
    (L.drop pos).take 1 ++ (L.drop (pos + 1)).take n
      = (L.drop pos).take (n + 1) := by
  by_cases h : pos < L.length
  · rw [List.drop_eq_getElem_cons h]
    simp only [List.take_succ_cons, List.take_zero, List.singleton_append,
      List.cons_append, List.nil_append]
  · rw [List.drop_eq_nil_of_le (Nat.le_of_not_lt h),
        List.drop_eq_nil_of_le (by omega)]
    simp

/-- Within one un-rotated epoch (the newest path stays the one already
open), `n` polls of the same snapshot emit exactly the next `n` lines past
the current position, in order — already consumed lines are never
re-emitted. -/
theorem tailRun_steady (fs : LogsDir) (ne : FileEnt)
    (hne : newestLog fs = some ne) (i : Nat) :
    ∀ (n pos : Nat),
      (tailRun ⟨some ne.path, some (i, pos)⟩ (List.replicate n fs)).2
        = (((inoContent fs i).drop pos).take n).map
            (fun l => ("log", l)) := by
  intro n
  induction n with
  | zero => intro pos; simp [tailRun]
  | succ n ih =>
    intro pos
    have edec : (tailRun ⟨some ne.path, some (i, pos)⟩
        (List.replicate (n + 1) fs)).2
      = (tailStep fs ⟨some ne.path, some (i, pos)⟩).2 ++
        (tailRun (tailStep fs ⟨some ne.path, some (i, pos)⟩).1
          (List.replicate n fs)).2 := rfl
    rw [edec, tailStep_steady fs ne hne, tailRead_at]
    by_cases h : pos < (inoContent fs i).length
    · rw [if_pos h]
      dsimp only
      rw [ih (pos + 1), ← List.map_append, take_one_drop_append]
    · rw [if_neg h]
      dsimp only
      simp only [Nat.add_zero]
      rw [ih pos, List.drop_eq_nil_of_le (Nat.le_of_not_lt h)]
      simp

/-- Counterexample to C8 as stated: a rename rotation (`server.log` →
`server.log.1`, same inode, same already-consumed content) makes the
tailer reopen the renamed file from position 0 and re-emit the line it had
already emitted from the prior epoch. -/
theorem c8_tailer_replays_rotation :
    (tailRun initTailState
      [[⟨"server.log", 1, 10, ["x"]⟩],
       [⟨"server.log.1", 1, 10, ["x"]⟩]]).2
    = [("log", "x"), ("log", "x")] := rfl

/-- C8 (amended): (i) a switch to a differently named newest file of
ordinary size opens it at position 0 and reads its first pre-existing
line, if any — so only a freshly created (initially empty) file yields
exclusively new lines; (ii) while the newest path stays the open one,
polling emits exactly the successive lines past the current position,
never re-emitting a consumed line; (iii) in a creation-rotation (a new
empty `latest.log` appears and is then appended to), the run emits each
line exactly once and replays nothing. -/
theorem c8_tailer_switch_semantics :
    (∀ (fs : LogsDir) (st : TailState) (ne : FileEnt),
      newestLog fs = some ne →
      st.last_log_path ≠ some ne.path →
      fileSize ne ≤ TAIL_SIZE_THRESHOLD →
      (tailStep fs st).1.last_log_path = some ne.path ∧
      (tailStep fs st).1.handle
        = some (ne.ino,
            if 0 < (inoContent fs ne.ino).length then 1 else 0) ∧
      (tailStep fs st).2
        = ((inoContent fs ne.ino).take 1).map (fun l => ("log", l))) ∧
    (∀ (fs : LogsDir) (ne : FileEnt),
      newestLog fs = some ne →
      ∀ (i n pos : Nat),
        (tailRun ⟨some ne.path, some (i, pos)⟩ (List.replicate n fs)).2
          = (((inoContent fs i).drop pos).take n).map
              (fun l => ("log", l))) ∧
    ((tailRun initTailState
        [[⟨"server.log", 1, 10, ["a"]⟩],
         [⟨"server.log", 1, 10, ["a"]⟩],
         [⟨"server.log", 1, 10, ["a"]⟩, ⟨"latest.log", 2, 20, []⟩],
         [⟨"server.log", 1, 10, ["a"]⟩, ⟨"latest.log", 2, 20, ["b"]⟩]]).2
      = [("log", "a"), ("log", "b")]) :=
  ⟨fun fs st ne hne hd hsz => tailStep_switch fs st ne hne hd hsz,
   fun fs ne hne i n pos => tailRun_steady fs ne hne i n pos,
   rfl⟩

/-- Witness for C8 at concrete inputs: a switch onto a pre-filled
`latest.log` re-reads its first line, and a steady three-poll epoch from
position 1 emits exactly the remaining lines. -/
theorem c8_tailer_switch_semantics_witness :
    ((tailStep [⟨"latest.log", 5, 10, ["old", "new"]⟩]
        ⟨some "server.log", some (1, 2)⟩).1.last_log_path
      = some "latest.log" ∧
     (tailStep [⟨"latest.log", 5, 10, ["old", "new"]⟩]
        ⟨some "server.log", some (1, 2)⟩).1.handle = some (5, 1) ∧
     (tailStep [⟨"latest.log", 5, 10, ["old", "new"]⟩]
        ⟨some "server.log", some (1, 2)⟩).2 = [("log", "old")]) ∧
    ((tailRun ⟨some "latest.log", some (5, 1)⟩
        (List.replicate 3 [⟨"latest.log", 5, 10, ["old", "new", "tail"]⟩])).2
      = [("log", "new"), ("log", "tail")]) :=
  ⟨by
    have h := c8_tailer_switch_semantics.1
      [⟨"latest.log", 5, 10, ["old", "new"]⟩]
      ⟨some "server.log", some (1, 2)⟩
      ⟨"latest.log", 5, 10, ["old", "new"]⟩
      (by decide) (by decide) (by decide)
    exact ⟨h.1, h.2.1, h.2.2⟩,
   by
    have h := c8_tailer_switch_semantics.2.1
      [⟨"latest.log", 5, 10, ["old", "new", "tail"]⟩]
      ⟨"latest.log", 5, 10, ["old", "new", "tail"]⟩
      (by decide) 5 3 1
    exact h⟩

end Gotale
